import Mathlib

/-!
Verification of the battery-manager energy engine.

This file is a shallow embedding, over the rationals, of the core modules of
the battery-manager code base (battery, charger, inverter, PV system,
consumers, per-interval energy-flow dispatch, the controller's threshold
derivation and discretionary-load loop, and the simulator facade), together
with theorems settling the specification claims about them.

Python floats are modelled as rationals; Python dictionaries of flows as a
fixed-field structure; `datetime` values as a (day, hour, minute) record.
Methods that mutate `self` are modelled as functions returning the updated
structure.
-/

namespace BM

/-- The value stored by the `Battery.current_soc_percent` property setter:
`max(0, min(100, value))`. -/
def clamp_soc (v : ℚ) : ℚ := max 0 (min 100 v)

/-! ## Battery (battery.py) -/

structure Battery where
  capacity_wh : ℚ
  min_soc_percent : ℚ
  max_soc_percent : ℚ
  charge_efficiency : ℚ
  discharge_efficiency : ℚ
  current_soc_percent : ℚ

/-- The `current_soc_percent` property setter: clamps to [0, 100]. -/
def Battery.set_current_soc (b : Battery) (v : ℚ) : Battery :=
  { b with current_soc_percent := clamp_soc v }

/-- `Battery.current_energy_wh`: `(soc / 100) * capacity`. -/
def Battery.current_energy_wh (b : Battery) : ℚ :=
  b.current_soc_percent / 100 * b.capacity_wh

/-- `Battery.get_max_charge_energy_wh`. -/
def Battery.get_max_charge_energy_wh (b : Battery) : ℚ :=
  max 0 (b.max_soc_percent / 100 * b.capacity_wh - b.current_energy_wh)

/-- `Battery.get_max_discharge_energy_wh`. -/
def Battery.get_max_discharge_energy_wh (b : Battery) : ℚ :=
  max 0 (b.current_energy_wh - b.min_soc_percent / 100 * b.capacity_wh)

/-- `Battery.charge_discharge`: returns the transferred energy and the
battery with its updated SOC (the Python method mutates `self` and returns
only the energy). -/
def Battery.charge_discharge (b : Battery) (requested_energy_wh : ℚ) :
    ℚ × Battery :=
  if requested_energy_wh > 0 then
    let actual_charge_wh :=
      min (requested_energy_wh * b.charge_efficiency) b.get_max_charge_energy_wh
    (actual_charge_wh,
     { b with current_soc_percent :=
        (b.current_energy_wh + actual_charge_wh) / b.capacity_wh * 100 })
  else if requested_energy_wh < 0 then
    let required_battery_wh := -requested_energy_wh / b.discharge_efficiency
    let actual_battery_wh := min required_battery_wh b.get_max_discharge_energy_wh
    (-(actual_battery_wh * b.discharge_efficiency),
     { b with current_soc_percent :=
        (b.current_energy_wh - actual_battery_wh) / b.capacity_wh * 100 })
  else (0, b)

/-- `Battery.simulate_charge_discharge`: returns (transferred energy,
resulting SOC) without touching the battery.  Note that its discharging
branch clamps the requested magnitude itself against the maximal discharge
energy, without first dividing by the discharge efficiency. -/
def Battery.simulate_charge_discharge (b : Battery) (requested_energy_wh : ℚ) :
    ℚ × ℚ :=
  if requested_energy_wh > 0 then
    let actual_charge_wh :=
      min (requested_energy_wh * b.charge_efficiency) b.get_max_charge_energy_wh
    (actual_charge_wh, (b.current_energy_wh + actual_charge_wh) / b.capacity_wh * 100)
  else if requested_energy_wh < 0 then
    let actual_discharge_wh :=
      min (-requested_energy_wh) b.get_max_discharge_energy_wh
    (-(actual_discharge_wh * b.discharge_efficiency),
     (b.current_energy_wh - actual_discharge_wh) / b.capacity_wh * 100)
  else (0, b.current_soc_percent)

/-- Repeated application of `charge_discharge`, keeping only the battery
state (the Python caller discards the returned energy when only the state
matters). -/
def apply_requests (b : Battery) (reqs : List ℚ) : Battery :=
  reqs.foldl (fun bb r => (bb.charge_discharge r).2) b

/-! ## Charger (charger.py) -/

structure Charger where
  max_power_w : ℚ
  efficiency : ℚ
  standby_power_w : ℚ

/-- `Charger.convert_ac_to_dc`. -/
def Charger.convert_ac_to_dc (c : Charger) (ac_energy_wh : ℚ) : ℚ :=
  if ac_energy_wh ≤ 0 then 0 else min ac_energy_wh c.max_power_w * c.efficiency

/-- `Charger.provide_dc_from_ac` (DC emergency operation): AC drawn from the
grid for the requested DC energy, bounded by the charger's capability. -/
def Charger.provide_dc_from_ac (c : Charger) (dc_energy_needed_wh : ℚ) : ℚ :=
  if dc_energy_needed_wh ≤ 0 then 0
  else min dc_energy_needed_wh (c.max_power_w * c.efficiency) / c.efficiency

/-- `Charger.get_standby_consumption_wh`. -/
def Charger.get_standby_consumption_wh (c : Charger) (active : Bool) : ℚ :=
  if active then c.standby_power_w else 0

/-- `Charger.get_max_ac_input_wh`. -/
def Charger.get_max_ac_input_wh (c : Charger) : ℚ := c.max_power_w

/-! ## Inverter (inverter.py) -/

structure Inverter where
  max_power_w : ℚ
  efficiency : ℚ
  standby_power_w : ℚ
  min_soc_percent : ℚ
  enabled : Bool
  current_soc_percent : ℚ

/-- `Inverter.update_soc`: stores the SOC and re-evaluates the explicit
enabled flag (disabled when below `min_soc_percent`, enabled otherwise). -/
def Inverter.update_soc (inv : Inverter) (soc_percent : ℚ) : Inverter :=
  { inv with current_soc_percent := soc_percent,
             enabled := if soc_percent < inv.min_soc_percent then false else true }

/-- `Inverter.set_enabled`: an explicit enable is overridden to disabled when
the current SOC is at or below the minimum threshold. -/
def Inverter.set_enabled (inv : Inverter) (e : Bool) : Inverter :=
  if e ∧ inv.current_soc_percent ≤ inv.min_soc_percent then { inv with enabled := false }
  else { inv with enabled := e }

/-- `Inverter.is_enabled`: the derived enable state. -/
def Inverter.is_enabled (inv : Inverter) : Bool :=
  inv.enabled && decide (inv.min_soc_percent < inv.current_soc_percent)

/-- `Inverter.provide_ac_from_dc`: DC energy required for the requested AC
output (0 when disabled or the request is not positive). -/
def Inverter.provide_ac_from_dc (inv : Inverter) (ac_energy_needed_wh : ℚ) : ℚ :=
  if inv.is_enabled = false ∨ ac_energy_needed_wh ≤ 0 then 0
  else min ac_energy_needed_wh inv.max_power_w / inv.efficiency

/-- `Inverter.get_standby_consumption_wh`. -/
def Inverter.get_standby_consumption_wh (inv : Inverter) : ℚ :=
  if inv.is_enabled then inv.standby_power_w else 0

/-- `Inverter.get_max_ac_output_wh`. -/
def Inverter.get_max_ac_output_wh (inv : Inverter) : ℚ :=
  if inv.is_enabled then inv.max_power_w else 0

/-! ## Energy flows (energy_flow.py) -/

/-- The flow dictionary returned by `calculate_energy_flow`, as a
fixed-field record (all fields initialised to zero as in the code). -/
structure Flows where
  grid_import_wh : ℚ := 0
  grid_export_wh : ℚ := 0
  battery_charge_wh : ℚ := 0
  battery_discharge_wh : ℚ := 0
  charger_ac_to_dc_wh : ℚ := 0
  charger_dc_from_ac_wh : ℚ := 0
  charger_forced_wh : ℚ := 0
  charger_voluntary_wh : ℚ := 0
  inverter_dc_to_ac_wh : ℚ := 0
  charger_standby_wh : ℚ := 0
  inverter_standby_wh : ℚ := 0
  final_soc_percent : ℚ := 0
  inverter_enabled : Bool := false

/-- Surplus branch, `total_dc_demand_wh`: direct DC consumption plus the
battery's remaining charge headroom in pre-efficiency terms. -/
def surplus_total_dc_demand (b : Battery) (dc_consumption_wh : ℚ) : ℚ :=
  dc_consumption_wh +
    (if b.get_max_charge_energy_wh > 0 then
      b.get_max_charge_energy_wh / b.charge_efficiency else 0)

/-- Surplus branch, `charger_input_wh` in the main (positive total demand)
path: the AC routed into the charger. -/
def surplus_charger_input (chg : Charger) (b : Battery)
    (ac_surplus_wh dc_consumption_wh : ℚ) : ℚ :=
  min (min ac_surplus_wh chg.get_max_ac_input_wh)
    (surplus_total_dc_demand b dc_consumption_wh / chg.efficiency)

/-- `EnergyFlowCalculator._handle_ac_surplus`.  Mutation of the battery via
`charge_discharge` is modelled by returning the updated battery. -/
def handle_ac_surplus (chg : Charger) (b : Battery)
    (ac_surplus_wh dc_consumption_wh : ℚ) : Flows × Battery :=
  if surplus_total_dc_demand b dc_consumption_wh > 0 then
    (if surplus_charger_input chg b ac_surplus_wh dc_consumption_wh > 0 then
      let charger_input_wh := surplus_charger_input chg b ac_surplus_wh dc_consumption_wh
      let dc_output_wh := chg.convert_ac_to_dc charger_input_wh
      let remaining_ac_wh := ac_surplus_wh - charger_input_wh
      let remaining_dc_wh := dc_output_wh - min dc_output_wh dc_consumption_wh
      let charged :=
        if remaining_dc_wh > 0 ∧ b.get_max_charge_energy_wh > 0 then
          b.charge_discharge remaining_dc_wh
        else (0, b)
      ({ charger_ac_to_dc_wh := dc_output_wh,
         charger_voluntary_wh := dc_output_wh,
         charger_standby_wh := chg.get_standby_consumption_wh true,
         battery_charge_wh := charged.1,
         grid_export_wh := if remaining_ac_wh > 0 then remaining_ac_wh else 0 }, charged.2)
    else
      ({ grid_export_wh := if ac_surplus_wh > 0 then ac_surplus_wh else 0 }, b))
  else
    if dc_consumption_wh > 0 then
      (if min (min ac_surplus_wh (dc_consumption_wh / chg.efficiency)) chg.get_max_ac_input_wh
          > 0 then
        let charger_input_wh :=
          min (min ac_surplus_wh (dc_consumption_wh / chg.efficiency)) chg.get_max_ac_input_wh
        let dc_output_wh := chg.convert_ac_to_dc charger_input_wh
        let remaining_ac_wh := ac_surplus_wh - charger_input_wh
        ({ charger_ac_to_dc_wh := dc_output_wh,
           charger_voluntary_wh := dc_output_wh,
           charger_standby_wh := chg.get_standby_consumption_wh true,
           grid_export_wh := if remaining_ac_wh > 0 then remaining_ac_wh else 0 }, b)
      else
        ({ grid_export_wh := if ac_surplus_wh > 0 then ac_surplus_wh else 0 }, b))
    else
      ({ grid_export_wh := if ac_surplus_wh > 0 then ac_surplus_wh else 0 }, b)

/-- Deficit branch, `inverter_ac_output_wh`: AC the inverter is asked to
supply. -/
def deficit_inverter_out (inv : Inverter) (ac_deficit_wh : ℚ) : ℚ :=
  if inv.is_enabled ∧ ac_deficit_wh > 0 then min ac_deficit_wh inv.get_max_ac_output_wh
  else 0

/-- Deficit branch, `dc_needed_for_ac_wh`: the DC energy the inverter
contributes to the combined battery draw. -/
def deficit_dc_needed_for_ac (inv : Inverter) (ac_deficit_wh : ℚ) : ℚ :=
  if inv.is_enabled ∧ ac_deficit_wh > 0 then
    inv.provide_ac_from_dc (deficit_inverter_out inv ac_deficit_wh)
  else 0

/-- Deficit branch, `total_dc_needed_wh`: direct DC consumption plus the
inverter's DC need, served from the battery in one transaction. -/
def deficit_total_dc (inv : Inverter) (ac_deficit_wh dc_consumption_wh : ℚ) : ℚ :=
  dc_consumption_wh + deficit_dc_needed_for_ac inv ac_deficit_wh

/-- Deficit branch, battery transaction: returns the recorded
`battery_discharge_wh` flow, the (possibly proportionally reduced)
`inverter_dc_to_ac_wh` flow, and the updated battery. -/
def deficit_battery_stage (b : Battery) (inv : Inverter)
    (ac_deficit_wh dc_consumption_wh : ℚ) : ℚ × ℚ × Battery :=
  let inverter_ac_output_wh := deficit_inverter_out inv ac_deficit_wh
  let dc_needed_for_ac_wh := deficit_dc_needed_for_ac inv ac_deficit_wh
  let total_dc_needed_wh := deficit_total_dc inv ac_deficit_wh dc_consumption_wh
  if total_dc_needed_wh > 0 then
    (if total_dc_needed_wh / b.discharge_efficiency ≤ b.get_max_discharge_energy_wh then
      (total_dc_needed_wh / b.discharge_efficiency, inverter_ac_output_wh,
       (b.charge_discharge (-total_dc_needed_wh)).2)
    else if b.get_max_discharge_energy_wh > 0 then
      let available_dc_output := b.get_max_discharge_energy_wh * b.discharge_efficiency
      let reduced_inverter_wh :=
        if available_dc_output < total_dc_needed_wh ∧ dc_needed_for_ac_wh > 0 then
          inverter_ac_output_wh *
            max 0 ((dc_needed_for_ac_wh - (total_dc_needed_wh - available_dc_output)) /
              dc_needed_for_ac_wh)
        else inverter_ac_output_wh
      (b.get_max_discharge_energy_wh, reduced_inverter_wh,
       (b.charge_discharge (-available_dc_output)).2)
    else (0, inverter_ac_output_wh, b))
  else (0, inverter_ac_output_wh, b)

/-- Deficit branch, `remaining_dc_for_direct`: the direct DC consumption
still unmet after the single battery draw, with the battery's DC output
allocated to the inverter first. -/
def deficit_unmet_direct_dc (b : Battery) (inv : Inverter)
    (ac_deficit_wh dc_consumption_wh : ℚ) : ℚ :=
  max 0 (dc_consumption_wh -
    max 0 ((deficit_battery_stage b inv ac_deficit_wh dc_consumption_wh).1 *
        b.discharge_efficiency -
      (deficit_total_dc inv ac_deficit_wh dc_consumption_wh - dc_consumption_wh)))

/-- Deficit branch, charger forced reverse mode: the pair (DC recorded as
forced, AC added to grid import).  Mirrors the guard in the code, which only
fires when some of the combined DC need came from the inverter. -/
def deficit_forced (chg : Charger) (b : Battery) (inv : Inverter)
    (ac_deficit_wh dc_consumption_wh : ℚ) : ℚ × ℚ :=
  if max 0 (dc_consumption_wh -
        (deficit_total_dc inv ac_deficit_wh dc_consumption_wh - dc_consumption_wh)) > 0 ∧
      deficit_total_dc inv ac_deficit_wh dc_consumption_wh > dc_consumption_wh then
    if deficit_unmet_direct_dc b inv ac_deficit_wh dc_consumption_wh > 0 then
      (deficit_unmet_direct_dc b inv ac_deficit_wh dc_consumption_wh,
       chg.provide_dc_from_ac (deficit_unmet_direct_dc b inv ac_deficit_wh dc_consumption_wh))
    else (0, 0)
  else (0, 0)

/-- `EnergyFlowCalculator._handle_ac_deficit`, assembled from the stage
functions above. -/
def handle_ac_deficit (chg : Charger) (b : Battery) (inv : Inverter)
    (ac_deficit_wh dc_consumption_wh : ℚ) : Flows × Battery :=
  let stage := deficit_battery_stage b inv ac_deficit_wh dc_consumption_wh
  let forced := deficit_forced chg b inv ac_deficit_wh dc_consumption_wh
  let remaining_ac_deficit_wh := ac_deficit_wh - deficit_inverter_out inv ac_deficit_wh
  ({ grid_import_wh :=
       (if remaining_ac_deficit_wh > 0 then remaining_ac_deficit_wh else 0) + forced.2,
     battery_discharge_wh := stage.1,
     charger_dc_from_ac_wh := forced.1,
     charger_forced_wh := forced.1,
     charger_standby_wh :=
       if forced.1 > 0 then chg.get_standby_consumption_wh true else 0,
     inverter_dc_to_ac_wh := stage.2.1,
     inverter_standby_wh :=
       if inv.is_enabled ∧ ac_deficit_wh > 0 then inv.get_standby_consumption_wh else 0 },
   stage.2.2)

/-- `EnergyFlowCalculator.calculate_energy_flow`: dispatches on the AC
balance, then refreshes the inverter's enable state from the battery SOC and
records the final state in the flow record. -/
def calculate_energy_flow (chg : Charger) (b : Battery) (inv : Inverter)
    (pv_production_wh ac_consumption_wh dc_consumption_wh : ℚ) :
    Flows × Battery × Inverter :=
  let ac_balance_wh := pv_production_wh - ac_consumption_wh
  let stage :=
    if ac_balance_wh > 0 then handle_ac_surplus chg b ac_balance_wh dc_consumption_wh
    else handle_ac_deficit chg b inv (-ac_balance_wh) dc_consumption_wh
  let b' := stage.2
  let inv' := inv.update_soc b'.current_soc_percent
  ({ stage.1 with final_soc_percent := b'.current_soc_percent,
                  inverter_enabled := inv'.is_enabled }, b', inv')

/-- `EnergyFlowCalculator.simulate_energy_flow`: saves the battery SOC and
the inverter's derived enable state, overwrites them with the requested
simulation SOC, runs `calculate_energy_flow`, and restores the saved values
through the SOC setter, `set_enabled` and `update_soc`. -/
def simulate_energy_flow (chg : Charger) (b : Battery) (inv : Inverter)
    (pv_production_wh ac_consumption_wh dc_consumption_wh initial_soc_percent : ℚ) :
    (Flows × ℚ) × Battery × Inverter :=
  let original_soc := b.current_soc_percent
  let original_inverter_enabled := inv.is_enabled
  let stage := calculate_energy_flow chg (b.set_current_soc initial_soc_percent)
    (inv.update_soc initial_soc_percent) pv_production_wh ac_consumption_wh dc_consumption_wh
  let b' := stage.2.1.set_current_soc original_soc
  let inv' := (stage.2.2.set_enabled original_inverter_enabled).update_soc original_soc
  ((stage.1, stage.1.final_soc_percent), b', inv')

/-- The flow/final-SOC value of `simulate_energy_flow`.  It does not depend
on the battery's pre-call SOC or on the inverter's pre-call enable state,
because `simulate_energy_flow` overwrites both before dispatching; the
controller loops therefore read it as a pure function. -/
def simulate_flows (chg : Charger) (b : Battery) (inv : Inverter)
    (pv_production_wh ac_consumption_wh dc_consumption_wh initial_soc_percent : ℚ) :
    Flows × ℚ :=
  (simulate_energy_flow chg b inv pv_production_wh ac_consumption_wh dc_consumption_wh
    initial_soc_percent).1

/-! ## PV system (pv_system.py) -/

structure PVSystem where
  max_power_w : ℚ
  morning_start_hour : ℕ
  morning_end_hour : ℕ
  afternoon_end_hour : ℕ
  morning_ratio : ℚ

/-- `PVSystem._calculate_hourly_pv`: hourly production for a day offset and
hour, from the daily forecast totals (kWh). -/
def PVSystem.calculate_hourly_pv (pv : PVSystem) (daily_forecasts : List ℚ)
    (day_offset : ℤ) (hour : ℕ) : ℚ :=
  if day_offset ≥ (daily_forecasts.length : ℤ) ∨ day_offset < 0 then 0
  else
    let daily_kwh := daily_forecasts.getD day_offset.toNat 0
    if daily_kwh ≤ 0 then 0
    else if hour < pv.morning_start_hour ∨ hour ≥ pv.afternoon_end_hour then 0
    else if hour < pv.morning_end_hour then
      daily_kwh * pv.morning_ratio * 1000 /
        ((pv.morning_end_hour - pv.morning_start_hour : ℕ) : ℚ)
    else
      daily_kwh * (1 - pv.morning_ratio) * 1000 /
        ((pv.afternoon_end_hour - pv.morning_end_hour : ℕ) : ℚ)

/-! ## Consumers (consumers.py) -/

structure ACConsumer where
  base_load_w : ℚ
  variable_load_w : ℚ
  variable_start_hour : ℕ
  variable_end_hour : ℕ
  additional_load_w : ℚ
  additional_load_active : Bool

/-- `ACConsumer.calculate_hourly_consumption_wh`: base load, plus the
variable load inside its window, plus the additional (discretionary) load
whenever its toggle is active, with no time restriction. -/
def ACConsumer.calculate_hourly (c : ACConsumer) (hour : ℕ) : ℚ :=
  c.base_load_w +
    (if c.variable_start_hour ≤ hour ∧ hour < c.variable_end_hour then c.variable_load_w
     else 0) +
    (if c.additional_load_active then c.additional_load_w else 0)

structure DCConsumer where
  base_load_w : ℚ
  variable_load_w : ℚ
  variable_start_hour : ℕ
  variable_end_hour : ℕ

/-- `DCConsumer` / `BaseConsumer.calculate_hourly_consumption_wh`. -/
def DCConsumer.calculate_hourly (c : DCConsumer) (hour : ℕ) : ℚ :=
  c.base_load_w +
    (if c.variable_start_hour ≤ hour ∧ hour < c.variable_end_hour then c.variable_load_w
     else 0)

/-! ## Time (datetime values used by the controller) -/

/-- A clock instant: calendar day index, hour of day (0-23), minute. -/
structure SimTime where
  day : ℤ
  hour : ℕ
  minute : ℕ

/-- `current_time + timedelta(hours=1)` (minute preserved). -/
def SimTime.add_one_hour (t : SimTime) : SimTime :=
  if t.hour + 1 ≥ 24 then ⟨t.day + 1, 0, t.minute⟩ else ⟨t.day, t.hour + 1, t.minute⟩

/-- `current_time.replace(minute=0, second=0, microsecond=0) + timedelta(hours=1)`:
the next full-hour boundary. -/
def SimTime.next_hour_boundary (t : SimTime) : SimTime :=
  if t.hour + 1 ≥ 24 then ⟨t.day + 1, 0, 0⟩ else ⟨t.day, t.hour + 1, 0⟩

/-! ## Controller (controller.py) -/

structure SystemCfg where
  battery : Battery
  charger : Charger
  inverter : Inverter
  pv_system : PVSystem
  ac_consumer : ACConsumer
  dc_consumer : DCConsumer
  target_soc_percent : ℚ
  extra_load_w : ℚ

/-- Hourly PV production at a target time, with the day offset taken as the
calendar-day difference to the reference time. -/
def pv_at (cfg : SystemCfg) (fcs : List ℚ) (t ref : SimTime) : ℚ :=
  cfg.pv_system.calculate_hourly_pv fcs (t.day - ref.day) t.hour

/-- Hourly AC consumption with the discretionary-load toggle set to the
given state. -/
def ac_at (cfg : SystemCfg) (active : Bool) (t : SimTime) : ℚ :=
  ({ cfg.ac_consumer with additional_load_active := active }).calculate_hourly t.hour

/-- Hourly DC consumption. -/
def dc_at (cfg : SystemCfg) (t : SimTime) : ℚ :=
  cfg.dc_consumer.calculate_hourly t.hour

/-- Duration fraction of a simulated interval: the first interval covers the
remaining minutes of the starting hour, later intervals are full hours. -/
def duration_fraction (hourIdx : ℕ) (start : SimTime) : ℚ :=
  if hourIdx = 0 then ((60 - start.minute : ℕ) : ℚ) / 60 else 1

/-- One scan step of `_simulate_soc_progression`: the list of hourly final
SOC values.  The AC consumer's discretionary toggle is the `active`
argument. -/
def soc_progression_aux (cfg : SystemCfg) (active : Bool) (fcs : List ℚ)
    (ref start : SimTime) : ℕ → ℕ → SimTime → ℚ → List ℚ
  | 0, _, _, _ => []
  | n + 1, i, t, soc =>
    let dur := duration_fraction i start
    let r := simulate_flows cfg.charger cfg.battery cfg.inverter
      (pv_at cfg fcs t ref * dur) (ac_at cfg active t * dur) (dc_at cfg t * dur) soc
    r.2 :: soc_progression_aux cfg active fcs ref start n (i + 1)
      (if i = 0 then t.next_hour_boundary else t.add_one_hour) r.2

/-- `MaximumBasedController._simulate_soc_progression` (SOC list only). -/
def simulate_soc_progression (cfg : SystemCfg) (active : Bool) (start : SimTime)
    (hours : ℕ) (fcs : List ℚ) (initial_soc : ℚ) (ref : SimTime) : List ℚ :=
  soc_progression_aux cfg active fcs ref start hours 0 start initial_soc

/-- The scan inside `_verify_additional_load_safety`: fail on the first SOC
below the inverter minimum, succeed on the first SOC at or above target,
succeed if the forecast ends without either. -/
def safety_scan (min_inv target : ℚ) : List ℚ → Bool
  | [] => true
  | s :: rest =>
    if s < min_inv then false
    else if s ≥ target then true
    else safety_scan min_inv target rest

/-- `MaximumBasedController._verify_additional_load_safety`. -/
def verify_additional_load_safety (cfg : SystemCfg) (start : SimTime) (hours : ℕ)
    (fcs : List ℚ) (initial_soc : ℚ) (ref : SimTime) : Bool :=
  let socs := simulate_soc_progression cfg true start hours fcs initial_soc ref
  if socs.isEmpty then false
  else safety_scan cfg.inverter.min_soc_percent cfg.target_soc_percent socs

/-- The battery-sourced share of the discretionary load's energy for one
hour, as computed in the active branch of the scheduling loop. -/
def battery_contribution_ratio (pv dc ac_with add_power : ℚ) : ℚ :=
  let available_pv := max 0 (pv - dc - (ac_with - add_power))
  let contribution := max 0 (add_power - available_pv)
  if add_power > 0 then contribution / add_power else 0

/-- Per-hour outcome of the discretionary-load scheduling loop. -/
structure StepResult where
  sched : Bool
  new_active : Bool
  new_soc : ℚ
  flows : Flows
  pv_production_wh : ℚ
  ac_consumption_wh : ℚ
  dc_consumption_wh : ℚ
  dur : ℚ

/-- One iteration of `_calculate_additional_load_optimization`: the
decision logic for hour `hourIdx`, entering with the given SOC and
discretionary-load state. -/
def add_load_step (cfg : SystemCfg) (fcs : List ℚ) (ref start : SimTime)
    (hoursTotal hourIdx : ℕ) (t : SimTime) (soc : ℚ) (active : Bool) : StepResult :=
  let dur := duration_fraction hourIdx start
  let pv := pv_at cfg fcs t ref * dur
  let dc := dc_at cfg t * dur
  if active then
    -- already active: check the deactivation condition
    let ac_with := ac_at cfg true t * dur
    let add_power := cfg.ac_consumer.additional_load_w * dur
    if battery_contribution_ratio pv dc ac_with add_power > 1/2 ∧
        soc ≥ cfg.target_soc_percent then
      let ac_without := ac_at cfg false t * dur
      let r := simulate_flows cfg.charger cfg.battery cfg.inverter pv ac_without dc soc
      ⟨false, false, r.2, r.1, pv, ac_without, dc, dur⟩
    else
      let r := simulate_flows cfg.charger cfg.battery cfg.inverter pv ac_with dc soc
      ⟨true, true, r.2, r.1, pv, ac_with, dc, dur⟩
  else
    -- inactive: activate only if the lookahead safety check passes
    if verify_additional_load_safety cfg t (hoursTotal - hourIdx) fcs soc ref then
      let ac_with := ac_at cfg true t * dur
      let r := simulate_flows cfg.charger cfg.battery cfg.inverter pv ac_with dc soc
      ⟨true, true, r.2, r.1, pv, ac_with, dc, dur⟩
    else
      let ac_without := ac_at cfg false t * dur
      let r := simulate_flows cfg.charger cfg.battery cfg.inverter pv ac_without dc soc
      ⟨false, false, r.2, r.1, pv, ac_without, dc, dur⟩

/-- The per-hour record kept by the scheduling loop (the fields of the
Python hourly-detail dictionary that the rest of the engine reads). -/
structure HourDetail where
  hour : ℕ
  dur : ℚ
  initial_soc_percent : ℚ
  final_soc_percent : ℚ
  pv_production_wh : ℚ
  ac_consumption_wh : ℚ
  dc_consumption_wh : ℚ
  additional_load_active : Bool
  grid_import_wh : ℚ
  grid_export_wh : ℚ
  charger_forced_wh : ℚ
  battery_discharge_wh : ℚ

/-- The iteration of `_calculate_additional_load_optimization`, producing
the hourly details in order. -/
def add_load_details (cfg : SystemCfg) (fcs : List ℚ) (ref start : SimTime)
    (hoursTotal : ℕ) : ℕ → ℕ → SimTime → ℚ → Bool → List HourDetail
  | 0, _, _, _, _ => []
  | n + 1, i, t, soc, active =>
    let s := add_load_step cfg fcs ref start hoursTotal i t soc active
    ⟨i, s.dur, soc, s.new_soc, s.pv_production_wh, s.ac_consumption_wh,
      s.dc_consumption_wh, s.sched, s.flows.grid_import_wh, s.flows.grid_export_wh,
      s.flows.charger_forced_wh, s.flows.battery_discharge_wh⟩ ::
    add_load_details cfg fcs ref start hoursTotal n (i + 1)
      (if i = 0 then t.next_hour_boundary else t.add_one_hour) s.new_soc s.new_active

structure AddLoadResult where
  additional_load_active : Bool
  schedule : List Bool
  hourly_details : List HourDetail

/-- `MaximumBasedController._calculate_additional_load_optimization`. -/
def calculate_additional_load_optimization (cfg : SystemCfg) (start : SimTime)
    (hours : ℕ) (fcs : List ℚ) (initial_soc : ℚ) (ref : SimTime) : AddLoadResult :=
  let details := add_load_details cfg fcs ref start hours hours 0 start initial_soc false
  { additional_load_active := (details.map (·.additional_load_active)).headD false,
    schedule := details.map (·.additional_load_active),
    hourly_details := details }

/-- Minimum of a list as Python's `min` (0 for the empty list, which the
code never passes). -/
def list_min : List ℚ → ℚ
  | [] => 0
  | x :: xs => xs.foldl min x

/-- Maximum of a list as Python's `max` (0 for the empty list, which the
code never passes). -/
def list_max : List ℚ → ℚ
  | [] => 0
  | x :: xs => xs.foldl max x

/-- Index of the first occurrence (Python `list.index`). -/
def first_index_of (x : ℚ) : List ℚ → ℕ
  | [] => 0
  | y :: ys => if y = x then 0 else first_index_of x ys + 1

/-- The below-target scan mode: first index at or above the target. -/
def target_reached_from_below (target : ℚ) : List ℚ → Option ℕ
  | [] => none
  | s :: rest =>
    if s ≥ target then some 0
    else (target_reached_from_below target rest).map (· + 1)

/-- The at-target scan mode: first index back at or above the target after
some earlier index dropped below it. -/
def target_reached_after_drop (target : ℚ) (below_seen : Bool) : List ℚ → Option ℕ
  | [] => none
  | s :: rest =>
    if s < target then (target_reached_after_drop target true rest).map (· + 1)
    else if below_seen then some 0
    else (target_reached_after_drop target below_seen rest).map (· + 1)

/-- The target-reached index of `_calculate_threshold_from_forecast` and
`_get_relevant_min_soc`: scan mode chosen by the starting SOC. -/
def target_reached_index (target : ℚ) (socs : List ℚ) : Option ℕ :=
  match socs with
  | [] => none
  | s0 :: _ =>
    if s0 ≥ target then target_reached_after_drop target false socs
    else target_reached_from_below target socs

structure ThresholdResult where
  threshold_soc : ℚ
  discharge_forecast_percent : ℚ

/-- `MaximumBasedController._calculate_threshold_from_forecast`.  The
battery argument carries the controller's current SOC; `forced_list` is the
per-hour `charger_forced_wh` column of the hourly details. -/
def calculate_threshold_from_forecast (b : Battery) (inv : Inverter)
    (target_soc : ℚ) (soc_forecast : List ℚ) (forced_list : List ℚ) : ThresholdResult :=
  match soc_forecast with
  | [] => ⟨target_soc, 0⟩
  | s0 :: rest =>
    match target_reached_index target_soc (s0 :: rest) with
    | none => ⟨target_soc, 0⟩
    | some ti =>
      let min_soc_forecast := list_min ((s0 :: rest).take (ti + 1))
      let total_forced_charger_wh := (forced_list.take (ti + 1)).sum
      let forced_charger_soc_percent := total_forced_charger_wh / b.capacity_wh * 100
      let forecast_safety_margin := min_soc_forecast - b.min_soc_percent
      let threshold_soc :=
        b.current_soc_percent - forecast_safety_margin + forced_charger_soc_percent
      let min_allowed_threshold := max b.min_soc_percent inv.min_soc_percent
      let max_allowed_threshold := min target_soc b.current_soc_percent
      ⟨max min_allowed_threshold (min threshold_soc max_allowed_threshold),
       forecast_safety_margin - forced_charger_soc_percent⟩

/-- `MaximumBasedController._get_relevant_min_soc`. -/
def get_relevant_min_soc (target_soc : ℚ) (socs : List ℚ) (current_soc : ℚ) : ℚ :=
  match socs with
  | [] => current_soc
  | s0 :: rest =>
    match target_reached_index target_soc (s0 :: rest) with
    | some ti => list_min ((s0 :: rest).take (ti + 1))
    | none => list_min (s0 :: rest)

/-- The grid-flow accumulation of `_calculate_total_grid_flows` (run with
the discretionary load off; the hour pointer advances without snapping to
the hour boundary, as in the code). -/
def grid_flows_aux (cfg : SystemCfg) (fcs : List ℚ) (ref start : SimTime) :
    ℕ → ℕ → SimTime → ℚ → ℚ × ℚ
  | 0, _, _, _ => (0, 0)
  | n + 1, i, t, soc =>
    let dur := duration_fraction i start
    let r := simulate_flows cfg.charger cfg.battery cfg.inverter
      (pv_at cfg fcs t ref * dur) (ac_at cfg false t * dur) (dc_at cfg t * dur) soc
    let rest := grid_flows_aux cfg fcs ref start n (i + 1) t.add_one_hour r.2
    (r.1.grid_import_wh + rest.1, r.1.grid_export_wh + rest.2)

/-- `MaximumBasedController._calculate_total_grid_flows` in kWh. -/
def calculate_total_grid_flows (cfg : SystemCfg) (start : SimTime) (hours : ℕ)
    (fcs : List ℚ) (initial_soc : ℚ) (ref : SimTime) : ℚ × ℚ :=
  let tot := grid_flows_aux cfg fcs ref start hours 0 start initial_soc
  (tot.1 / 1000, tot.2 / 1000)

/-- The forecast-hour count of `calculate_soc_threshold`: whole hours from
`now` to 08:00 two calendar days later, rounding any partial hour up. -/
def get_forecast_hours (t : SimTime) : ℕ :=
  let total_minutes : ℤ := (48 + 8 - (t.hour : ℤ)) * 60 - (t.minute : ℤ)
  (total_minutes / 60 + (if total_minutes % 60 > 0 then 1 else 0)).toNat

/-- The result record of `calculate_soc_threshold`. -/
structure CalcResult where
  soc_threshold_percent : ℚ
  min_soc_forecast_percent : ℚ
  max_soc_forecast_percent : ℚ
  discharge_forecast_percent : ℚ
  inverter_enabled : Bool
  forecast_hours : ℕ
  hours_until_max_soc : ℕ
  grid_import_kwh : ℚ
  grid_export_kwh : ℚ
  soc_forecast : List ℚ
  additional_load_active : Bool
  additional_load_schedule : List Bool

/-- `MaximumBasedController.calculate_soc_threshold`.  The controller first
stores the input SOC through the battery's clamping setter; all loops then
run on projections. -/
def calculate_soc_threshold (cfg : SystemCfg) (current_soc_percent : ℚ)
    (fcs : List ℚ) (t : SimTime) : CalcResult :=
  let cur := clamp_soc current_soc_percent
  let hours := get_forecast_hours t
  let opt := calculate_additional_load_optimization cfg t hours fcs cur t
  let socs := opt.hourly_details.map (·.final_soc_percent)
  let thr := calculate_threshold_from_forecast
    { cfg.battery with current_soc_percent := cur } cfg.inverter
    cfg.target_soc_percent socs (opt.hourly_details.map (·.charger_forced_wh))
  let gf := calculate_total_grid_flows cfg t hours fcs cur t
  { soc_threshold_percent := thr.threshold_soc,
    min_soc_forecast_percent := get_relevant_min_soc cfg.target_soc_percent socs
      current_soc_percent,
    max_soc_forecast_percent := if socs.isEmpty then current_soc_percent else list_max socs,
    discharge_forecast_percent := thr.discharge_forecast_percent,
    inverter_enabled := decide (current_soc_percent > thr.threshold_soc),
    forecast_hours := hours,
    hours_until_max_soc := if socs.isEmpty then 0 else first_index_of (list_max socs) socs + 1,
    grid_import_kwh := gf.1,
    grid_export_kwh := gf.2,
    soc_forecast := socs,
    additional_load_active := opt.additional_load_active,
    additional_load_schedule := opt.schedule }

/-! ## Simulator (simulator.py) -/

inductive SimError where
  | valueError : SimError
  | attributeError : SimError
deriving DecidableEq

/-- `BatteryManagerSimulator._validate_inputs`: SOC out of [0,100] and a
forecast count other than 3 raise `ValueError`; negative forecast entries
are clamped to 0 in place. -/
def validate_inputs (current_soc_percent : ℚ) (daily_forecasts : List ℚ) :
    Except SimError (List ℚ) :=
  if ¬ (0 ≤ current_soc_percent ∧ current_soc_percent ≤ 100) then .error .valueError
  else if daily_forecasts.length ≠ 3 then .error .valueError
  else .ok (daily_forecasts.map fun f => if f < 0 then 0 else f)

/-- `BatteryManagerSimulator.run_simulation`: validates the inputs, runs the
controller, and then calls `self.controller.simulate_soc_with_extra_load` —
a method that is not defined anywhere in the repository, so Python raises
`AttributeError` at that line on every invocation that passes validation. -/
def run_simulation (cfg : SystemCfg) (current_soc_percent : ℚ)
    (daily_forecasts : List ℚ) (t : SimTime) : Except SimError CalcResult :=
  match validate_inputs current_soc_percent daily_forecasts with
  | .error e => .error e
  | .ok fcs =>
    let _results := calculate_soc_threshold cfg current_soc_percent fcs t
    .error .attributeError

/-- The default configuration of `const.py` as the components actually
receive it (the prefixed keys of `DEFAULT_CONFIG` are not stripped before
the component constructors read their unprefixed names, so the components
fall back to their own defaults, except for the charger/inverter efficiency
and inverter minimum-SOC overrides applied by the controller). -/
def default_cfg : SystemCfg :=
  ⟨⟨5000, 5, 95, 97/100, 97/100, 50⟩, ⟨2300, 92/100, 10⟩, ⟨2300, 95/100, 15, 20, true, 50⟩,
   ⟨3200, 7, 13, 18, 4/5⟩, ⟨50, 75, 6, 20, 400, false⟩, ⟨50, 25, 6, 22⟩, 85, 400⟩

/-- A small valid configuration used to exercise the discretionary-load
scheduling loop: 1 kWh battery with lossless transfer, lossless charger and
inverter, a two-hour PV window at hours 0 and 1 with morning share 4/5,
constant 50 W AC and 100 W DC load, 400 W discretionary load, target SOC
85%, inverter minimum 20%. -/
def cfgC8 : SystemCfg :=
  ⟨⟨1000, 5, 95, 1, 1, 50⟩, ⟨2300, 1, 10⟩, ⟨2300, 1, 15, 20, true, 50⟩,
   ⟨3200, 0, 1, 2, 4/5⟩, ⟨50, 0, 6, 20, 400, false⟩, ⟨100, 0, 6, 22⟩, 85, 400⟩

/-! ## Theorems -/

theorem cd_fields (b : Battery) (x : ℚ) :
    (b.charge_discharge x).2.capacity_wh = b.capacity_wh ∧
    (b.charge_discharge x).2.min_soc_percent = b.min_soc_percent ∧
    (b.charge_discharge x).2.max_soc_percent = b.max_soc_percent ∧
    (b.charge_discharge x).2.charge_efficiency = b.charge_efficiency ∧
    (b.charge_discharge x).2.discharge_efficiency = b.discharge_efficiency := by
  unfold Battery.charge_discharge
  split_ifs <;> simp

theorem cd_step (b : Battery) (x : ℚ)
    (hcap : 0 < b.capacity_wh)
    (heffC : 0 < b.charge_efficiency)
    (heffD : 0 < b.discharge_efficiency)
    (h1 : b.min_soc_percent ≤ b.current_soc_percent)
    (h2 : b.current_soc_percent ≤ b.max_soc_percent) :
    b.min_soc_percent ≤ (b.charge_discharge x).2.current_soc_percent ∧
      (b.charge_discharge x).2.current_soc_percent ≤ b.max_soc_percent := by
  have hE1 : b.min_soc_percent / 100 * b.capacity_wh ≤ b.current_energy_wh := by
    unfold Battery.current_energy_wh
    have h100 : (0:ℚ) < 100 := by norm_num
    nlinarith [mul_le_mul_of_nonneg_right h1 hcap.le]
  have hE2 : b.current_energy_wh ≤ b.max_soc_percent / 100 * b.capacity_wh := by
    unfold Battery.current_energy_wh
    nlinarith [mul_le_mul_of_nonneg_right h2 hcap.le]
  have key : ∀ y : ℚ, b.min_soc_percent / 100 * b.capacity_wh ≤ y →
      y ≤ b.max_soc_percent / 100 * b.capacity_wh →
      b.min_soc_percent ≤ y / b.capacity_wh * 100 ∧ y / b.capacity_wh * 100 ≤ b.max_soc_percent := by
    intro y hy1 hy2
    constructor
    · rw [div_mul_eq_mul_div, le_div_iff₀ hcap]
      nlinarith
    · rw [div_mul_eq_mul_div, div_le_iff₀ hcap]
      nlinarith
  unfold Battery.charge_discharge
  split_ifs with hx hx'
  · -- charging: the added energy is nonnegative and at most the headroom
    set A := min (x * b.charge_efficiency) b.get_max_charge_energy_wh with hA
    have hA0 : 0 ≤ A := le_min (by positivity) (le_max_left _ _)
    have hAle' : A ≤ b.max_soc_percent / 100 * b.capacity_wh - b.current_energy_wh := by
      have hAle : A ≤ max 0 (b.max_soc_percent / 100 * b.capacity_wh - b.current_energy_wh) :=
        min_le_right _ _
      rcases max_cases (0:ℚ) (b.max_soc_percent / 100 * b.capacity_wh - b.current_energy_wh) with
        ⟨he, hc⟩ | ⟨he, hc⟩
      · rw [he] at hAle; linarith
      · rw [he] at hAle; exact hAle
    exact key _ (by linarith) (by linarith)
  · -- discharging: the drawn energy is nonnegative and at most the reserve
    set A := min (-x / b.discharge_efficiency) b.get_max_discharge_energy_wh with hA
    have hA0 : 0 ≤ A := le_min (div_nonneg (by linarith) heffD.le) (le_max_left _ _)
    have hAle' : A ≤ b.current_energy_wh - b.min_soc_percent / 100 * b.capacity_wh := by
      have hAle : A ≤ max 0 (b.current_energy_wh - b.min_soc_percent / 100 * b.capacity_wh) :=
        min_le_right _ _
      rcases max_cases (0:ℚ) (b.current_energy_wh - b.min_soc_percent / 100 * b.capacity_wh) with
        ⟨he, hc⟩ | ⟨he, hc⟩
      · rw [he] at hAle; linarith
      · rw [he] at hAle; exact hAle
    exact key _ (by linarith) (by linarith)
  · exact ⟨h1, h2⟩

/-- C7: for every battery whose SOC starts within
[min_soc_percent, max_soc_percent] (under the validated configuration:
positive capacity, positive efficiencies), every finite sequence of
`charge_discharge` calls with arbitrary requested energies leaves
`current_soc_percent` within [min_soc_percent, max_soc_percent] after each
call, that is, after every prefix of the request list. -/
theorem C7_charge_discharge_soc_stays_in_bounds (b : Battery) (reqs : List ℚ)
    (hcap : 0 < b.capacity_wh)
    (heffC : 0 < b.charge_efficiency)
    (heffD : 0 < b.discharge_efficiency)
    (h1 : b.min_soc_percent ≤ b.current_soc_percent)
    (h2 : b.current_soc_percent ≤ b.max_soc_percent) :
    ∀ n : ℕ, b.min_soc_percent ≤ (apply_requests b (reqs.take n)).current_soc_percent ∧
      (apply_requests b (reqs.take n)).current_soc_percent ≤ b.max_soc_percent := by
  induction reqs generalizing b with
  | nil => intro n; simpa [apply_requests] using ⟨h1, h2⟩
  | cons r rs ih =>
    intro n
    match n with
    | 0 => simpa [apply_requests] using ⟨h1, h2⟩
    | Nat.succ m =>
      have hf := cd_fields b r
      have hstep := cd_step b r hcap heffC heffD h1 h2
      have := ih (b.charge_discharge r).2
        (by rw [hf.1]; exact hcap) (by rw [hf.2.2.2.1]; exact heffC)
        (by rw [hf.2.2.2.2]; exact heffD)
        (by rw [hf.2.1]; exact hstep.1) (by rw [hf.2.2.1]; exact hstep.2) m
      rw [hf.2.1, hf.2.2.1] at this
      simpa [apply_requests, List.take_succ_cons] using this

/-- Witness for C7 at a concrete battery (the default configuration at 50%
SOC) and a concrete request sequence. -/
theorem C7_witness :
    ((5:ℚ) < 5000 ∧ (0:ℚ) < 97/100 ∧
      (5:ℚ) ≤ 50 ∧ (50:ℚ) ≤ 95) ∧
    ((5:ℚ) ≤ (apply_requests ⟨5000, 5, 95, 97/100, 97/100, 50⟩
        ([1000, -2000, 500].take 3)).current_soc_percent ∧
      (apply_requests ⟨5000, 5, 95, 97/100, 97/100, 50⟩
        ([1000, -2000, 500].take 3)).current_soc_percent ≤ 95) := by
  refine ⟨by norm_num, ?_⟩
  exact C7_charge_discharge_soc_stays_in_bounds ⟨5000, 5, 95, 97/100, 97/100, 50⟩
    [1000, -2000, 500] (by norm_num) (by norm_num) (by norm_num)
    (by norm_num) (by norm_num) 3

/-- C3 counterexample: a battery with capacity 1000 Wh, SOC bounds [0,100],
charge efficiency 1 and discharge efficiency 1/2, at 100% SOC.  For the
discharge request of -100 Wh, `charge_discharge` delivers -100 Wh and
leaves SOC 80%, while `simulate_charge_discharge` reports -50 Wh and SOC
90%: the two disagree in both components, refuting the claim at this
explicit input. -/
theorem C3_counterexample :
    ((⟨1000, 0, 100, 1, 1/2, 100⟩ : Battery).simulate_charge_discharge (-100)).1 = -50 ∧
    ((⟨1000, 0, 100, 1, 1/2, 100⟩ : Battery).charge_discharge (-100)).1 = -100 ∧
    ((⟨1000, 0, 100, 1, 1/2, 100⟩ : Battery).simulate_charge_discharge (-100)).2 = 90 ∧
    ((⟨1000, 0, 100, 1, 1/2, 100⟩ : Battery).charge_discharge (-100)).2.current_soc_percent = 80 := by
  refine ⟨?_, ?_, ?_, ?_⟩ <;>
  norm_num [Battery.simulate_charge_discharge, Battery.charge_discharge,
    Battery.get_max_discharge_energy_wh, Battery.current_energy_wh]

/-- C3 amended: `simulate_charge_discharge` agrees with `charge_discharge`
(same transferred energy and same resulting SOC) for every charging or zero
request, and for every request when the discharge efficiency is 1; it never
mutates the battery (it is a pure function in this embedding, mirroring the
method, which never writes `self`).  The disagreement is confined to lossy
discharging, where the simulation clamps the requested output against the
maximal discharge energy without first converting it to battery-side
energy. -/
theorem C3_simulate_matches_commit_when_charging_or_lossless (b : Battery) (x : ℚ)
    (h : 0 ≤ x ∨ b.discharge_efficiency = 1) :
    b.simulate_charge_discharge x =
      ((b.charge_discharge x).1, (b.charge_discharge x).2.current_soc_percent) := by
  rcases h with h | h
  · rcases lt_or_eq_of_le h with hx | hx
    · simp [Battery.simulate_charge_discharge, Battery.charge_discharge, hx]
    · simp [Battery.simulate_charge_discharge, Battery.charge_discharge, ← hx]
  · by_cases hx : x > 0
    · simp [Battery.simulate_charge_discharge, Battery.charge_discharge, hx]
    · by_cases hx' : x < 0
      · simp [Battery.simulate_charge_discharge, Battery.charge_discharge, hx, hx', h]
      · simp [Battery.simulate_charge_discharge, Battery.charge_discharge, hx, hx']

/-- Witness for C3's amended theorem at a concrete charging request. -/
theorem C3_witness :
    ((0:ℚ) ≤ 500 ∨ (⟨5000, 5, 95, 97/100, 97/100, 50⟩ : Battery).discharge_efficiency = 1) ∧
    (⟨5000, 5, 95, 97/100, 97/100, 50⟩ : Battery).simulate_charge_discharge 500 =
      (((⟨5000, 5, 95, 97/100, 97/100, 50⟩ : Battery).charge_discharge 500).1,
       ((⟨5000, 5, 95, 97/100, 97/100, 50⟩ : Battery).charge_discharge 500).2.current_soc_percent) := by
  exact ⟨Or.inl (by norm_num),
    C3_simulate_matches_commit_when_charging_or_lossless _ 500 (Or.inl (by norm_num))⟩

/-- C2: the restore path of `simulate_energy_flow` does not leave the
inverter state unchanged.  With the inverter explicitly disabled via
`set_enabled(False)` while its tracked SOC (50%) is above the minimum
(20%), a trivial `simulate_energy_flow(0, 0, 0, 50)` call ends with the
explicit enabled flag (and even the derived `is_enabled`) equal to `true`:
the saved value is the derived `is_enabled`, and the closing
`update_soc(original_soc)` unconditionally re-enables the inverter at any
SOC at or above the minimum.  The battery SOC itself is restored. -/
theorem C2_simulate_energy_flow_mutates_inverter :
    (⟨2300, 95/100, 15, 20, false, 50⟩ : Inverter).enabled = false ∧
    (⟨2300, 95/100, 15, 20, false, 50⟩ : Inverter).is_enabled = false ∧
    (simulate_energy_flow ⟨2300, 92/100, 10⟩ ⟨5000, 5, 95, 97/100, 97/100, 50⟩
      ⟨2300, 95/100, 15, 20, false, 50⟩ 0 0 0 50).2.2.enabled = true ∧
    (simulate_energy_flow ⟨2300, 92/100, 10⟩ ⟨5000, 5, 95, 97/100, 97/100, 50⟩
      ⟨2300, 95/100, 15, 20, false, 50⟩ 0 0 0 50).2.2.is_enabled = true ∧
    (simulate_energy_flow ⟨2300, 92/100, 10⟩ ⟨5000, 5, 95, 97/100, 97/100, 50⟩
      ⟨2300, 95/100, 15, 20, false, 50⟩ 0 0 0 50).2.1.current_soc_percent = 50 := by
  refine ⟨rfl, by norm_num [Inverter.is_enabled], ?_, ?_, ?_⟩ <;>
  norm_num [simulate_energy_flow, calculate_energy_flow, handle_ac_deficit,
    handle_ac_surplus, deficit_battery_stage, deficit_forced, deficit_unmet_direct_dc,
    deficit_total_dc, deficit_dc_needed_for_ac, deficit_inverter_out,
    Inverter.update_soc, Inverter.set_enabled, Inverter.is_enabled,
    Inverter.get_max_ac_output_wh, Inverter.provide_ac_from_dc,
    Inverter.get_standby_consumption_wh,
    Battery.set_current_soc, clamp_soc, Battery.charge_discharge,
    Battery.get_max_charge_energy_wh, Battery.get_max_discharge_energy_wh,
    Battery.current_energy_wh, Charger.provide_dc_from_ac, Charger.convert_ac_to_dc,
    Charger.get_max_ac_input_wh, Charger.get_standby_consumption_wh, min_def, max_def]

theorem inverter_out_on (inv : Inverter) (D : ℚ) (hEn : inv.is_enabled ∧ D > 0) :
    deficit_inverter_out inv D = min D inv.max_power_w := by
  rw [deficit_inverter_out, if_pos hEn, Inverter.get_max_ac_output_wh, if_pos hEn.1]

theorem dc_needed_on (inv : Inverter) (D : ℚ) (hEn : inv.is_enabled ∧ D > 0)
    (hinvMax : 0 < inv.max_power_w) :
    deficit_dc_needed_for_ac inv D = min D inv.max_power_w / inv.efficiency := by
  have ho : 0 < min D inv.max_power_w := lt_min hEn.2 hinvMax
  rw [deficit_dc_needed_for_ac, if_pos hEn, inverter_out_on inv D hEn,
    Inverter.provide_ac_from_dc, if_neg, min_eq_left (min_le_right D inv.max_power_w)]
  push_neg
  exact ⟨by simp [hEn.1], ho⟩

theorem inverter_off (inv : Inverter) (D : ℚ) (h : ¬(inv.is_enabled ∧ D > 0)) :
    deficit_inverter_out inv D = 0 ∧ deficit_dc_needed_for_ac inv D = 0 := by
  rw [deficit_inverter_out, if_neg h, deficit_dc_needed_for_ac, if_neg h]
  exact ⟨rfl, rfl⟩

theorem battery_stage_covered (b : Battery) (inv : Inverter) (D dc : ℚ)
    (htot : deficit_total_dc inv D dc > 0)
    (hreq : deficit_total_dc inv D dc / b.discharge_efficiency ≤ b.get_max_discharge_energy_wh) :
    deficit_battery_stage b inv D dc =
      (deficit_total_dc inv D dc / b.discharge_efficiency, deficit_inverter_out inv D,
       (b.charge_discharge (-(deficit_total_dc inv D dc))).2) := by
  rw [deficit_battery_stage]
  simp only [htot, if_pos, hreq, if_true]

theorem forced_zero_when_covered (chg : Charger) (b : Battery) (inv : Inverter) (D dc : ℚ)
    (hdc : 0 ≤ dc) (heffD : 0 < b.discharge_efficiency)
    (htot : deficit_total_dc inv D dc > 0)
    (hreq : deficit_total_dc inv D dc / b.discharge_efficiency ≤ b.get_max_discharge_energy_wh) :
    deficit_forced chg b inv D dc = (0, 0) := by
  rw [deficit_forced]
  split_ifs with h1 h2
  · exfalso
    rw [deficit_unmet_direct_dc, battery_stage_covered b inv D dc htot hreq] at h2
    have hcancel : deficit_total_dc inv D dc / b.discharge_efficiency * b.discharge_efficiency
        = deficit_total_dc inv D dc := by field_simp
    rw [hcancel] at h2
    have h3 : deficit_total_dc inv D dc - (deficit_total_dc inv D dc - dc) = dc := by ring
    rw [h3, max_eq_right hdc] at h2
    simp at h2
  · rfl
  · rfl

theorem deficit_balance (chg : Charger) (b : Battery) (inv : Inverter) (D dc : ℚ)
    (hD : 0 ≤ D) (hdc : 0 ≤ dc)
    (hinvEff : inv.efficiency = 1)
    (hinvMax : 0 < inv.max_power_w)
    (heffD : 0 < b.discharge_efficiency)
    (hcov : deficit_total_dc inv D dc ≤
      b.get_max_discharge_energy_wh * b.discharge_efficiency) :
    (handle_ac_deficit chg b inv D dc).1.grid_export_wh = 0 ∧
    (handle_ac_deficit chg b inv D dc).1.battery_charge_wh = 0 ∧
    (handle_ac_deficit chg b inv D dc).1.grid_import_wh +
      (handle_ac_deficit chg b inv D dc).1.battery_discharge_wh * b.discharge_efficiency
      = D + dc := by
  by_cases hEn : inv.is_enabled ∧ D > 0
  · have hneed : deficit_dc_needed_for_ac inv D = min D inv.max_power_w := by
      rw [dc_needed_on inv D hEn hinvMax, hinvEff, div_one]
    have hout := inverter_out_on inv D hEn
    have ho : 0 < min D inv.max_power_w := lt_min hEn.2 hinvMax
    have htoteq : deficit_total_dc inv D dc = dc + min D inv.max_power_w := by
      rw [deficit_total_dc, hneed]
    have htot : deficit_total_dc inv D dc > 0 := by rw [htoteq]; positivity
    have hreq : deficit_total_dc inv D dc / b.discharge_efficiency ≤
        b.get_max_discharge_energy_wh := by
      rw [div_le_iff₀ heffD]; exact hcov
    have hstage := battery_stage_covered b inv D dc htot hreq
    have hforced := forced_zero_when_covered chg b inv D dc hdc heffD htot hreq
    rw [handle_ac_deficit]
    simp only [hstage, hforced]
    refine ⟨trivial, trivial, ?_⟩
    simp only [hout]
    have hcancel : deficit_total_dc inv D dc / b.discharge_efficiency * b.discharge_efficiency
        = deficit_total_dc inv D dc := by field_simp
    rw [hcancel, htoteq]
    have hole : min D inv.max_power_w ≤ D := min_le_left _ _
    by_cases hrem : D - min D inv.max_power_w > 0
    · rw [if_pos hrem]; ring
    · have : D - min D inv.max_power_w = 0 := le_antisymm (not_lt.1 hrem) (by linarith)
      rw [if_neg hrem]
      linarith
  · obtain ⟨hout0, hneed0⟩ := inverter_off inv D hEn
    have htoteq : deficit_total_dc inv D dc = dc := by
      rw [deficit_total_dc, hneed0, add_zero]
    by_cases hdc0 : dc > 0
    · have htot : deficit_total_dc inv D dc > 0 := by rw [htoteq]; exact hdc0
      have hreq : deficit_total_dc inv D dc / b.discharge_efficiency ≤
          b.get_max_discharge_energy_wh := by
        rw [div_le_iff₀ heffD]; exact hcov
      have hstage := battery_stage_covered b inv D dc htot hreq
      have hforced := forced_zero_when_covered chg b inv D dc hdc heffD htot hreq
      rw [handle_ac_deficit]
      simp only [hstage, hforced]
      refine ⟨trivial, trivial, ?_⟩
      simp only [hout0]
      have hcancel : deficit_total_dc inv D dc / b.discharge_efficiency * b.discharge_efficiency
          = deficit_total_dc inv D dc := by field_simp
      rw [hcancel, htoteq]
      by_cases hDpos : D - 0 > 0
      · rw [if_pos hDpos]; ring
      · have : D = 0 := le_antisymm (by linarith [not_lt.1 hDpos]) hD
        rw [if_neg hDpos]; linarith
    · have hdce : dc = 0 := le_antisymm (not_lt.1 hdc0) hdc
      have htot0 : ¬ (deficit_total_dc inv D dc > 0) := by rw [htoteq]; exact hdc0
      have hstage : deficit_battery_stage b inv D dc = (0, deficit_inverter_out inv D, b) := by
        rw [deficit_battery_stage]
        simp only [deficit_total_dc, deficit_inverter_out, deficit_dc_needed_for_ac] at htot0 ⊢
        rw [if_neg htot0]
      have hforced : deficit_forced chg b inv D dc = (0, 0) := by
        rw [deficit_forced, if_neg]
        push_neg
        intro h1
        rw [htoteq]
      rw [handle_ac_deficit]
      simp only [hstage, hforced]
      refine ⟨trivial, trivial, ?_⟩
      simp only [hout0]
      by_cases hDpos : D - 0 > 0
      · rw [if_pos hDpos]; rw [hdce]; ring
      · have : D = 0 := le_antisymm (by linarith [not_lt.1 hDpos]) hD
        rw [if_neg hDpos]; rw [hdce, this]; ring

theorem surplus_balance (chg : Charger) (b : Battery) (S dc : ℚ)
    (hS : 0 < S) (hdc : 0 ≤ dc)
    (hch : chg.efficiency = 1) (hchMax : 0 < chg.max_power_w)
    (heffC : 0 < b.charge_efficiency)
    (hcov : dc ≤ min S chg.max_power_w) :
    (handle_ac_surplus chg b S dc).1.grid_import_wh = 0 ∧
    (handle_ac_surplus chg b S dc).1.battery_discharge_wh = 0 ∧
    dc + (handle_ac_surplus chg b S dc).1.grid_export_wh +
      (handle_ac_surplus chg b S dc).1.battery_charge_wh / b.charge_efficiency = S := by
  have hM : 0 ≤ b.get_max_charge_energy_wh := le_max_left _ _
  have hTge : dc ≤ surplus_total_dc_demand b dc := by
    rw [surplus_total_dc_demand]
    split_ifs with h
    · have : 0 ≤ b.get_max_charge_energy_wh / b.charge_efficiency := by positivity
      linarith
    · linarith
  by_cases hT : surplus_total_dc_demand b dc > 0
  · have hcin : surplus_charger_input chg b S dc =
        min (min S chg.max_power_w) (surplus_total_dc_demand b dc) := by
      rw [surplus_charger_input, Charger.get_max_ac_input_wh, hch, div_one]
    have hdcle : dc ≤ surplus_charger_input chg b S dc := by
      rw [hcin]; exact le_min hcov hTge
    have hpos : 0 < surplus_charger_input chg b S dc := by
      rw [hcin]; exact lt_min (lt_min hS hchMax) hT
    have hcinS : surplus_charger_input chg b S dc ≤ S := by
      rw [hcin]; exact le_trans (min_le_left _ _) (min_le_left _ _)
    have hcinP : surplus_charger_input chg b S dc ≤ chg.max_power_w := by
      rw [hcin]; exact le_trans (min_le_left _ _) (min_le_right _ _)
    have hcinT : surplus_charger_input chg b S dc ≤ surplus_total_dc_demand b dc := by
      rw [hcin]; exact min_le_right _ _
    set c := surplus_charger_input chg b S dc with hc
    have hdcout : chg.convert_ac_to_dc c = c := by
      rw [Charger.convert_ac_to_dc, if_neg (not_le.2 hpos), min_eq_left hcinP, hch, mul_one]
    rw [handle_ac_surplus]
    rw [if_pos hT, if_pos hpos]
    simp only [← hc, hdcout]
    have hminsup : min c dc = dc := min_eq_right hdcle
    rw [hminsup]
    refine ⟨trivial, trivial, ?_⟩
    by_cases hrem : c - dc > 0 ∧ b.get_max_charge_energy_wh > 0
    · rw [if_pos hrem]
      have hle : (c - dc) * b.charge_efficiency ≤ b.get_max_charge_energy_wh := by
        have : c ≤ dc + b.get_max_charge_energy_wh / b.charge_efficiency := by
          have := hcinT
          rw [surplus_total_dc_demand, if_pos hrem.2] at this
          linarith
        rw [← le_div_iff₀ heffC]
        linarith
      have hcd : (b.charge_discharge (c - dc)).1 = (c - dc) * b.charge_efficiency := by
        rw [Battery.charge_discharge, if_pos hrem.1]
        exact min_eq_left hle
      rw [hcd]
      have hchdiv : (c - dc) * b.charge_efficiency / b.charge_efficiency = c - dc := by
        field_simp
      rw [hchdiv]
      by_cases hexp : S - c > 0
      · rw [if_pos hexp]; ring
      · have : S - c = 0 := le_antisymm (not_lt.1 hexp) (by linarith)
        rw [if_neg hexp]; linarith
    · rw [if_neg hrem]
      have hceq : c = dc := by
        rcases not_and_or.1 hrem with h | h
        · exact le_antisymm (by linarith [not_lt.1 h]) hdcle
        · have hM0 : b.get_max_charge_energy_wh = 0 := le_antisymm (not_lt.1 h) hM
          have hTd : surplus_total_dc_demand b dc = dc := by
            rw [surplus_total_dc_demand, hM0]
            norm_num
          rw [hTd] at hcinT
          exact le_antisymm hcinT hdcle
      simp only [hceq]
      by_cases hexp : S - dc > 0
      · rw [if_pos hexp]; norm_num
      · have : S - dc = 0 := le_antisymm (not_lt.1 hexp) (by linarith [hdcle, hceq ▸ hcinS])
        rw [if_neg hexp]
        norm_num
        linarith
  · have hdce : dc = 0 := le_antisymm (by linarith [not_lt.1 hT, hTge]) hdc
    rw [handle_ac_surplus, if_neg hT, if_neg (by rw [hdce]; norm_num : ¬ dc > 0)]
    refine ⟨rfl, rfl, ?_⟩
    rw [if_pos (by linarith : S > 0), hdce]
    norm_num

/-- C5 amended: the per-interval balance
pv + grid_import + battery_discharge * discharge_efficiency
  = ac + dc + grid_export + battery_charge / charge_efficiency
holds exactly (not merely within tolerance) for nonnegative inputs under
the additional hypotheses that the charger and inverter conversions are
lossless (efficiency 1) and that no demand is dropped: in the surplus
branch the AC surplus and the charger capacity both cover the direct DC
consumption, and in the deficit branch the battery covers the combined DC
need.  Without these hypotheses the balance fails, because inverter and
charger conversion losses and silently dropped demand do not appear in the
equation (see the counterexample). -/
theorem C5_energy_balance_lossless_covered (chg : Charger) (b : Battery) (inv : Inverter)
    (pv ac dc : ℚ)
    (hpv : 0 ≤ pv) (hac : 0 ≤ ac) (hdc : 0 ≤ dc)
    (hchEff : chg.efficiency = 1) (hinvEff : inv.efficiency = 1)
    (heffC : 0 < b.charge_efficiency) (heffD : 0 < b.discharge_efficiency)
    (hchMax : 0 < chg.max_power_w) (hinvMax : 0 < inv.max_power_w)
    (hsur : pv - ac > 0 → dc ≤ min (pv - ac) chg.max_power_w)
    (hdef : ¬ (pv - ac > 0) → deficit_total_dc inv (-(pv - ac)) dc ≤
      b.get_max_discharge_energy_wh * b.discharge_efficiency) :
    pv + (calculate_energy_flow chg b inv pv ac dc).1.grid_import_wh +
      (calculate_energy_flow chg b inv pv ac dc).1.battery_discharge_wh *
        b.discharge_efficiency
      = ac + dc + (calculate_energy_flow chg b inv pv ac dc).1.grid_export_wh +
        (calculate_energy_flow chg b inv pv ac dc).1.battery_charge_wh /
          b.charge_efficiency := by
  by_cases hbal : pv - ac > 0
  · have hs := surplus_balance chg b (pv - ac) dc hbal hdc hchEff hchMax heffC (hsur hbal)
    simp only [calculate_energy_flow, if_pos hbal]
    rw [hs.1, hs.2.1, zero_mul]
    linarith [hs.2.2]
  · have hDnn : 0 ≤ -(pv - ac) := by linarith [not_lt.1 hbal]
    have hd := deficit_balance chg b inv (-(pv - ac)) dc hDnn hdc hinvEff hinvMax heffD
      (hdef hbal)
    simp only [calculate_energy_flow, if_neg hbal]
    rw [hd.1, hd.2.1]
    have h22 := hd.2.2
    rw [zero_div]
    linarith [h22]

/-- C5 counterexample: lossless battery and charger but a 50%-efficient
inverter; pv = 0, ac = 100 Wh, dc = 0, battery at 50% of 1000 Wh.  The
claimed balance is off by exactly 100 Wh (the inverter's conversion loss is
on neither side of the equation), far beyond floating-point tolerance. -/
theorem C5_counterexample :
    (0 : ℚ) + (calculate_energy_flow ⟨2300, 1, 10⟩ ⟨1000, 0, 100, 1, 1, 50⟩
        ⟨2300, 1/2, 15, 20, true, 50⟩ 0 100 0).1.grid_import_wh +
      (calculate_energy_flow ⟨2300, 1, 10⟩ ⟨1000, 0, 100, 1, 1, 50⟩
        ⟨2300, 1/2, 15, 20, true, 50⟩ 0 100 0).1.battery_discharge_wh * 1 -
      (100 + 0 + (calculate_energy_flow ⟨2300, 1, 10⟩ ⟨1000, 0, 100, 1, 1, 50⟩
        ⟨2300, 1/2, 15, 20, true, 50⟩ 0 100 0).1.grid_export_wh +
       (calculate_energy_flow ⟨2300, 1, 10⟩ ⟨1000, 0, 100, 1, 1, 50⟩
        ⟨2300, 1/2, 15, 20, true, 50⟩ 0 100 0).1.battery_charge_wh / 1) = 100 := by
  norm_num [calculate_energy_flow, handle_ac_deficit, handle_ac_surplus,
    deficit_battery_stage, deficit_forced, deficit_unmet_direct_dc, deficit_total_dc,
    deficit_dc_needed_for_ac, deficit_inverter_out,
    Inverter.is_enabled, Inverter.get_max_ac_output_wh, Inverter.provide_ac_from_dc,
    Inverter.get_standby_consumption_wh, Inverter.update_soc,
    Battery.charge_discharge, Battery.get_max_charge_energy_wh,
    Battery.get_max_discharge_energy_wh, Battery.current_energy_wh,
    Charger.provide_dc_from_ac, min_def, max_def]

/-- Witness for C5's amended theorem: a deficit interval with a lossy
(50%-efficient) battery, lossless charger and inverter, fully covered by
the battery. -/
theorem C5_witness :
    (deficit_total_dc ⟨2300, 1, 15, 20, true, 50⟩ (-((0:ℚ) - 100)) 50 ≤
      Battery.get_max_discharge_energy_wh ⟨1000, 0, 100, 1/2, 1/2, 50⟩ * (1/2)) ∧
    ((0:ℚ) + (calculate_energy_flow ⟨2300, 1, 10⟩ ⟨1000, 0, 100, 1/2, 1/2, 50⟩
        ⟨2300, 1, 15, 20, true, 50⟩ 0 100 50).1.grid_import_wh +
      (calculate_energy_flow ⟨2300, 1, 10⟩ ⟨1000, 0, 100, 1/2, 1/2, 50⟩
        ⟨2300, 1, 15, 20, true, 50⟩ 0 100 50).1.battery_discharge_wh * (1/2)
      = 100 + 50 + (calculate_energy_flow ⟨2300, 1, 10⟩ ⟨1000, 0, 100, 1/2, 1/2, 50⟩
        ⟨2300, 1, 15, 20, true, 50⟩ 0 100 50).1.grid_export_wh +
        (calculate_energy_flow ⟨2300, 1, 10⟩ ⟨1000, 0, 100, 1/2, 1/2, 50⟩
          ⟨2300, 1, 15, 20, true, 50⟩ 0 100 50).1.battery_charge_wh / (1/2)) := by
  have hcov : deficit_total_dc ⟨2300, 1, 15, 20, true, 50⟩ (-((0:ℚ) - 100)) 50 ≤
      Battery.get_max_discharge_energy_wh ⟨1000, 0, 100, 1/2, 1/2, 50⟩ * (1/2) := by
    norm_num [deficit_total_dc, deficit_dc_needed_for_ac, deficit_inverter_out,
      Inverter.is_enabled, Inverter.get_max_ac_output_wh, Inverter.provide_ac_from_dc,
      Battery.get_max_discharge_energy_wh, Battery.current_energy_wh, min_def, max_def]
  refine ⟨hcov, ?_⟩
  exact C5_energy_balance_lossless_covered ⟨2300, 1, 10⟩ ⟨1000, 0, 100, 1/2, 1/2, 50⟩
    ⟨2300, 1, 15, 20, true, 50⟩ 0 100 50 (by norm_num) (by norm_num) (by norm_num)
    rfl rfl (by norm_num) (by norm_num) (by norm_num) (by norm_num)
    (fun h => absurd h (by norm_num)) (fun _ => hcov)

/-- C6 amended: in the deficit branch, the charger's forced reverse mode
serves the direct DC consumption left unmet after the single battery draw
(battery DC allocated to the inverter first) and adds the corresponding AC
(as returned by `provide_dc_from_ac`) to the grid import — but only when
the inverter contributed DC demand (`dc_needed_for_ac_wh > 0` and the
direct DC consumption exceeds it); when the inverter contributes nothing
(in particular when it is disabled), unmet DC consumption is left unserved
with no forced-charger flow and no import (see the counterexample). -/
theorem C6_forced_charger_requires_inverter_contribution (chg : Charger) (b : Battery)
    (inv : Inverter) (D dc : ℚ)
    (hEn : inv.is_enabled = true) (hD : 0 < D)
    (hinvMax : 0 < inv.max_power_w) (hinvEffPos : 0 < inv.efficiency)
    (hgt : deficit_dc_needed_for_ac inv D < dc) :
    (handle_ac_deficit chg b inv D dc).1.charger_forced_wh =
      deficit_unmet_direct_dc b inv D dc ∧
    (handle_ac_deficit chg b inv D dc).1.charger_dc_from_ac_wh =
      deficit_unmet_direct_dc b inv D dc ∧
    (handle_ac_deficit chg b inv D dc).1.grid_import_wh =
      (if D - deficit_inverter_out inv D > 0 then D - deficit_inverter_out inv D else 0) +
        chg.provide_dc_from_ac (deficit_unmet_direct_dc b inv D dc) := by
  have hEn' : inv.is_enabled ∧ D > 0 := ⟨hEn, hD⟩
  have hneed : deficit_dc_needed_for_ac inv D = min D inv.max_power_w / inv.efficiency :=
    dc_needed_on inv D hEn' hinvMax
  have hneedPos : 0 < deficit_dc_needed_for_ac inv D := by
    rw [hneed]
    exact div_pos (lt_min hD hinvMax) hinvEffPos
  have hg1 : max 0 (dc - (deficit_total_dc inv D dc - dc)) > 0 := by
    rw [deficit_total_dc]
    have : dc - (dc + deficit_dc_needed_for_ac inv D - dc) > 0 := by linarith
    exact lt_max_of_lt_right this
  have hg2 : deficit_total_dc inv D dc > dc := by
    rw [deficit_total_dc]; linarith
  have hforced : deficit_forced chg b inv D dc =
      (deficit_unmet_direct_dc b inv D dc,
       chg.provide_dc_from_ac (deficit_unmet_direct_dc b inv D dc)) := by
    rw [deficit_forced, if_pos ⟨hg1, hg2⟩]
    by_cases hu : deficit_unmet_direct_dc b inv D dc > 0
    · rw [if_pos hu]
    · rw [if_neg hu]
      have hu0 : deficit_unmet_direct_dc b inv D dc = 0 := by
        have : 0 ≤ deficit_unmet_direct_dc b inv D dc := le_max_left _ _
        linarith [not_lt.1 hu]
      rw [hu0, Charger.provide_dc_from_ac, if_pos le_rfl]
  rw [handle_ac_deficit]
  simp only [hforced]
  exact ⟨trivial, trivial, trivial⟩

/-- C6 counterexample: deficit branch (pv = 0 < ac = 50) with the inverter
disabled (SOC 10 below its 20% minimum) and the battery empty (at its
minimum SOC), dc consumption 100 Wh.  The entire direct DC consumption is
unmet, yet no forced charger flow is recorded and the grid import covers
only the AC deficit — refuting the claim, which demands the shortfall be
served through `charger_forced_wh` with the AC added to the import. -/
theorem C6_counterexample :
    (calculate_energy_flow ⟨2300, 1, 10⟩ ⟨1000, 5, 95, 97/100, 97/100, 5⟩
      ⟨2300, 95/100, 15, 20, true, 10⟩ 0 50 100).1.charger_forced_wh = 0 ∧
    (calculate_energy_flow ⟨2300, 1, 10⟩ ⟨1000, 5, 95, 97/100, 97/100, 5⟩
      ⟨2300, 95/100, 15, 20, true, 10⟩ 0 50 100).1.charger_dc_from_ac_wh = 0 ∧
    (calculate_energy_flow ⟨2300, 1, 10⟩ ⟨1000, 5, 95, 97/100, 97/100, 5⟩
      ⟨2300, 95/100, 15, 20, true, 10⟩ 0 50 100).1.grid_import_wh = 50 ∧
    (calculate_energy_flow ⟨2300, 1, 10⟩ ⟨1000, 5, 95, 97/100, 97/100, 5⟩
      ⟨2300, 95/100, 15, 20, true, 10⟩ 0 50 100).1.battery_discharge_wh = 0 := by
  refine ⟨?_, ?_, ?_, ?_⟩ <;>
  norm_num [calculate_energy_flow, handle_ac_deficit, handle_ac_surplus,
    deficit_battery_stage, deficit_forced, deficit_unmet_direct_dc, deficit_total_dc,
    deficit_dc_needed_for_ac, deficit_inverter_out,
    Inverter.is_enabled, Inverter.get_max_ac_output_wh, Inverter.provide_ac_from_dc,
    Inverter.get_standby_consumption_wh, Inverter.update_soc,
    Battery.charge_discharge, Battery.get_max_charge_energy_wh,
    Battery.get_max_discharge_energy_wh, Battery.current_energy_wh,
    Charger.provide_dc_from_ac, min_def, max_def]

/-- Witness for C6's amended theorem: enabled lossless inverter contributing
10 Wh of DC demand, a nearly empty battery, and 100 Wh of direct DC
consumption. -/
theorem C6_witness :
    (Inverter.is_enabled ⟨2300, 1, 15, 5, true, 6⟩ = true ∧ (0:ℚ) < 10 ∧
      deficit_dc_needed_for_ac ⟨2300, 1, 15, 5, true, 6⟩ 10 < 100) ∧
    ((handle_ac_deficit ⟨2300, 1, 10⟩ ⟨1000, 5, 95, 1, 1, 6⟩ ⟨2300, 1, 15, 5, true, 6⟩
        10 100).1.charger_forced_wh =
      deficit_unmet_direct_dc ⟨1000, 5, 95, 1, 1, 6⟩ ⟨2300, 1, 15, 5, true, 6⟩ 10 100 ∧
     (handle_ac_deficit ⟨2300, 1, 10⟩ ⟨1000, 5, 95, 1, 1, 6⟩ ⟨2300, 1, 15, 5, true, 6⟩
        10 100).1.charger_dc_from_ac_wh =
      deficit_unmet_direct_dc ⟨1000, 5, 95, 1, 1, 6⟩ ⟨2300, 1, 15, 5, true, 6⟩ 10 100 ∧
     (handle_ac_deficit ⟨2300, 1, 10⟩ ⟨1000, 5, 95, 1, 1, 6⟩ ⟨2300, 1, 15, 5, true, 6⟩
        10 100).1.grid_import_wh =
      (if (10:ℚ) - deficit_inverter_out ⟨2300, 1, 15, 5, true, 6⟩ 10 > 0 then
        10 - deficit_inverter_out ⟨2300, 1, 15, 5, true, 6⟩ 10 else 0) +
        Charger.provide_dc_from_ac ⟨2300, 1, 10⟩
          (deficit_unmet_direct_dc ⟨1000, 5, 95, 1, 1, 6⟩ ⟨2300, 1, 15, 5, true, 6⟩ 10 100)) := by
  have hEn : Inverter.is_enabled ⟨2300, 1, 15, 5, true, 6⟩ = true := by
    norm_num [Inverter.is_enabled]
  have hgt : deficit_dc_needed_for_ac ⟨2300, 1, 15, 5, true, 6⟩ 10 < 100 := by
    norm_num [deficit_dc_needed_for_ac, deficit_inverter_out, Inverter.is_enabled,
      Inverter.get_max_ac_output_wh, Inverter.provide_ac_from_dc, min_def]
  refine ⟨⟨hEn, by norm_num, hgt⟩, ?_⟩
  exact C6_forced_charger_requires_inverter_contribution ⟨2300, 1, 10⟩
    ⟨1000, 5, 95, 1, 1, 6⟩ ⟨2300, 1, 15, 5, true, 6⟩ 10 100 hEn (by norm_num)
    (by norm_num) (by norm_num) hgt

theorem calculate_inv_congr (chg : Charger) (b : Battery) (pv ac dc : ℚ)
    (mp eff sb ms : ℚ) (e1 e2 : Bool) (s1 s2 : ℚ)
    (h : Inverter.is_enabled ⟨mp, eff, sb, ms, e1, s1⟩ =
         Inverter.is_enabled ⟨mp, eff, sb, ms, e2, s2⟩) :
    calculate_energy_flow chg b ⟨mp, eff, sb, ms, e1, s1⟩ pv ac dc =
      calculate_energy_flow chg b ⟨mp, eff, sb, ms, e2, s2⟩ pv ac dc := by
  simp only [calculate_energy_flow, handle_ac_deficit, deficit_battery_stage,
    deficit_forced, deficit_unmet_direct_dc, deficit_total_dc, deficit_dc_needed_for_ac,
    deficit_inverter_out, Inverter.get_max_ac_output_wh, Inverter.provide_ac_from_dc,
    Inverter.get_standby_consumption_wh, Inverter.update_soc, h]

theorem clamp_idem (v : ℚ) : clamp_soc (clamp_soc v) = clamp_soc v := by
  rw [clamp_soc, clamp_soc]
  rcases le_total v 0 with h | h
  · rw [min_eq_right (le_trans h (by norm_num)), max_eq_left h]
    norm_num
  · rcases le_total 100 v with h2 | h2
    · rw [min_eq_left h2]
      norm_num
    · rw [min_eq_right h2, max_eq_right h]
      rw [min_eq_right h2, max_eq_right h]

theorem update_soc_is_enabled (inv : Inverter) (x : ℚ) :
    (inv.update_soc x).is_enabled = decide (inv.min_soc_percent < x) := by
  rw [Inverter.update_soc, Inverter.is_enabled]
  by_cases h : x < inv.min_soc_percent
  · simp [h, lt_asymm h]
  · simp [h]

theorem clamp_lt_iff (ms x : ℚ) (h0 : 0 ≤ ms) (h1 : ms < 100) :
    ms < clamp_soc x ↔ ms < x := by
  rw [clamp_soc]
  by_cases hx0 : x ≤ 0
  · rw [min_eq_right (le_trans hx0 (by norm_num)), max_eq_left hx0]
    constructor
    · intro h; linarith
    · intro h; linarith
  · by_cases hx100 : 100 ≤ x
    · rw [min_eq_left hx100]
      constructor
      · intro h; linarith
      · intro h
        rw [max_eq_right (by norm_num : (0:ℚ) ≤ 100)]
        exact h1
    · push_neg at hx0 hx100
      rw [min_eq_right hx100.le, max_eq_right hx0.le]

/-- C10 amended: the SOC property setter stores exactly max(0, min(100, v)),
and — provided the inverter's minimum SOC lies in [0, 100), as every
validated configuration short of the degenerate value 100 does —
`simulate_energy_flow` computes the same projection for an out-of-range
initial SOC as for the clamped one.  The proviso is needed because the code
passes the raw (unclamped) value to `inverter.update_soc`, so with
`min_soc_percent = 100` an initial SOC above 100 enables the inverter while
the clamped value 100 does not (see the counterexample). -/
theorem C10_setter_clamps_and_projection_uses_clamped_soc (chg : Charger) (b : Battery)
    (inv : Inverter) (pv ac dc v : ℚ)
    (h0 : 0 ≤ inv.min_soc_percent) (h1 : inv.min_soc_percent < 100) :
    (∀ w : ℚ, (b.set_current_soc w).current_soc_percent = max 0 (min 100 w)) ∧
    simulate_flows chg b inv pv ac dc v =
      simulate_flows chg b inv pv ac dc (clamp_soc v) := by
  refine ⟨fun w => rfl, ?_⟩
  have hb : b.set_current_soc (clamp_soc v) = b.set_current_soc v := by
    rw [Battery.set_current_soc, Battery.set_current_soc, clamp_idem]
  have hEn : Inverter.is_enabled (inv.update_soc v) =
      Inverter.is_enabled (inv.update_soc (clamp_soc v)) := by
    rw [update_soc_is_enabled, update_soc_is_enabled]
    exact decide_eq_decide.2 (clamp_lt_iff _ _ h0 h1).symm
  have hflows : calculate_energy_flow chg (b.set_current_soc v) (inv.update_soc v) pv ac dc
      = calculate_energy_flow chg (b.set_current_soc (clamp_soc v))
          (inv.update_soc (clamp_soc v)) pv ac dc := by
    rw [hb]
    simp only [Inverter.update_soc] at hEn ⊢
    exact calculate_inv_congr chg (b.set_current_soc v) pv ac dc
      inv.max_power_w inv.efficiency inv.standby_power_w inv.min_soc_percent
      _ _ _ _ hEn
  rw [simulate_flows, simulate_flows, simulate_energy_flow, simulate_energy_flow]
  simp only [hflows]

/-- C10 counterexample: with `inverter.min_soc_percent = 100` (a validated
value) and initial SOC 150, the projection differs from the projection at
the clamped SOC 100: the raw value keeps the inverter enabled (150 > 100),
so the battery serves the deficit and the final SOC is 90, while the
clamped run disables the inverter and imports from the grid, ending at SOC
100.  The projection is therefore not computed from the clamped SOC. -/
theorem C10_counterexample :
    (simulate_flows ⟨2300, 1, 10⟩ ⟨1000, 5, 95, 1, 1, 50⟩ ⟨2300, 1, 15, 100, true, 50⟩
      0 100 0 150).2 = 90 ∧
    (simulate_flows ⟨2300, 1, 10⟩ ⟨1000, 5, 95, 1, 1, 50⟩ ⟨2300, 1, 15, 100, true, 50⟩
      0 100 0 (clamp_soc 150)).2 = 100 := by
  constructor <;>
  norm_num [simulate_flows, simulate_energy_flow, calculate_energy_flow, handle_ac_deficit,
    handle_ac_surplus, deficit_battery_stage, deficit_forced, deficit_unmet_direct_dc,
    deficit_total_dc, deficit_dc_needed_for_ac, deficit_inverter_out,
    Inverter.update_soc, Inverter.set_enabled, Inverter.is_enabled,
    Inverter.get_max_ac_output_wh, Inverter.provide_ac_from_dc,
    Inverter.get_standby_consumption_wh, surplus_total_dc_demand, surplus_charger_input,
    Battery.set_current_soc, clamp_soc, Battery.charge_discharge,
    Battery.get_max_charge_energy_wh, Battery.get_max_discharge_energy_wh,
    Battery.current_energy_wh, Charger.provide_dc_from_ac, Charger.convert_ac_to_dc,
    Charger.get_max_ac_input_wh, Charger.get_standby_consumption_wh, min_def, max_def]

/-- Witness for C10's amended theorem at the default inverter minimum (20%)
and the out-of-range initial SOC 150. -/
theorem C10_witness :
    ((0:ℚ) ≤ 20 ∧ (20:ℚ) < 100) ∧
    ((∀ w : ℚ, (Battery.set_current_soc ⟨5000, 5, 95, 97/100, 97/100, 50⟩ w).current_soc_percent
        = max 0 (min 100 w)) ∧
      simulate_flows ⟨2300, 92/100, 10⟩ ⟨5000, 5, 95, 97/100, 97/100, 50⟩
        ⟨2300, 95/100, 15, 20, true, 50⟩ 0 100 0 150 =
      simulate_flows ⟨2300, 92/100, 10⟩ ⟨5000, 5, 95, 97/100, 97/100, 50⟩
        ⟨2300, 95/100, 15, 20, true, 50⟩ 0 100 0 (clamp_soc 150)) := by
  refine ⟨⟨by norm_num, by norm_num⟩, ?_⟩
  exact C10_setter_clamps_and_projection_uses_clamped_soc ⟨2300, 92/100, 10⟩
    ⟨5000, 5, 95, 97/100, 97/100, 50⟩ ⟨2300, 95/100, 15, 20, true, 50⟩ 0 100 0 150
    (by norm_num) (by norm_num)

/-- C4 amended: whenever the trajectory reaches the target (in the sense of
the code's two scan modes) and the bounds are consistent — that is,
max(battery.min_soc, inverter.min_soc) ≤ min(target_soc, current_soc) — the
derived threshold lies within
[max(battery.min_soc, inverter.min_soc), min(target_soc, current_soc)].
In the fallback cases (empty trajectory or target never reached) the
threshold is target_soc, which exceeds min(target_soc, current_soc)
whenever current_soc < target_soc (see the counterexample); and when the
bounds cross, the result is the lower bound, outside the empty interval. -/
theorem C4_threshold_within_bounds_when_target_reached (b : Battery) (inv : Inverter)
    (target : ℚ) (socs forced : List ℚ)
    (ti : ℕ) (hti : target_reached_index target socs = some ti)
    (hbound : max b.min_soc_percent inv.min_soc_percent ≤ min target b.current_soc_percent) :
    max b.min_soc_percent inv.min_soc_percent ≤
      (calculate_threshold_from_forecast b inv target socs forced).threshold_soc ∧
    (calculate_threshold_from_forecast b inv target socs forced).threshold_soc ≤
      min target b.current_soc_percent := by
  match socs, hti with
  | [], hti => simp [target_reached_index] at hti
  | s0 :: rest, hti =>
    rw [calculate_threshold_from_forecast]
    simp only [hti]
    exact ⟨le_max_left _ _, max_le hbound (min_le_right _ _)⟩

/-- C4 counterexample: current SOC 50, target 85, trajectory [50, 40] never
reaching the target.  The fallback returns threshold 85, which is outside
the claimed interval since min(target, current_soc) = 50. -/
theorem C4_counterexample :
    (calculate_threshold_from_forecast ⟨5000, 5, 95, 97/100, 97/100, 50⟩
      ⟨2300, 95/100, 15, 20, true, 50⟩ 85 [50, 40] []).threshold_soc = 85 ∧
    ¬ ((calculate_threshold_from_forecast ⟨5000, 5, 95, 97/100, 97/100, 50⟩
      ⟨2300, 95/100, 15, 20, true, 50⟩ 85 [50, 40] []).threshold_soc ≤ min 85 50) := by
  have h : calculate_threshold_from_forecast ⟨5000, 5, 95, 97/100, 97/100, 50⟩
      (⟨2300, 95/100, 15, 20, true, 50⟩ : Inverter) 85 [50, 40] [] = ⟨85, 0⟩ := by
    norm_num [calculate_threshold_from_forecast, target_reached_index,
      target_reached_from_below, target_reached_after_drop]
  rw [h]
  norm_num

/-- Witness for C4's amended theorem: trajectory [50, 90] reaching the
target at index 1, default bounds. -/
theorem C4_witness :
    target_reached_index 85 [50, 90] = some 1 ∧
    max (5:ℚ) 20 ≤ min 85 50 ∧
    (max (5:ℚ) 20 ≤
      (calculate_threshold_from_forecast ⟨5000, 5, 95, 97/100, 97/100, 50⟩
        ⟨2300, 95/100, 15, 20, true, 50⟩ 85 [50, 90] []).threshold_soc ∧
     (calculate_threshold_from_forecast ⟨5000, 5, 95, 97/100, 97/100, 50⟩
        ⟨2300, 95/100, 15, 20, true, 50⟩ 85 [50, 90] []).threshold_soc ≤ min 85 50) := by
  have hti : target_reached_index (85:ℚ) [50, 90] = some 1 := by
    norm_num [target_reached_index, target_reached_from_below]
  refine ⟨hti, by norm_num, ?_⟩
  exact C4_threshold_within_bounds_when_target_reached ⟨5000, 5, 95, 97/100, 97/100, 50⟩
    ⟨2300, 95/100, 15, 20, true, 50⟩ 85 [50, 90] [] 1 hti (by norm_num)

/-- C9: for every valid PVSystem configuration and 3-entry forecast list,
and every day offset in [0, 2] whose daily forecast value is positive, the
hourly production is exactly 0 for every hour outside
[morning_start_hour, afternoon_end_hour), and the sum of the hourly
production over the 24 hours of the day equals the daily forecast times
1000 (exactly, over the rationals — the "up to rounding" allowance of the
claim is not needed). -/
theorem C9_pv_window_and_daily_sum (pv : PVSystem) (fcs : List ℚ) (d : ℤ)
    (hms : pv.morning_start_hour < pv.morning_end_hour)
    (hme : pv.morning_end_hour < pv.afternoon_end_hour)
    (hae : pv.afternoon_end_hour ≤ 23)
    (hlen : fcs.length = 3) (hd0 : 0 ≤ d) (hd2 : d < 3)
    (hpos : 0 < fcs.getD d.toNat 0) :
    (∀ h : ℕ, h < pv.morning_start_hour ∨ h ≥ pv.afternoon_end_hour →
      pv.calculate_hourly_pv fcs d h = 0) ∧
    ∑ h in Finset.range 24, pv.calculate_hourly_pv fcs d h = fcs.getD d.toNat 0 * 1000 := by
  have hday : ¬ (d ≥ (fcs.length : ℤ) ∨ d < 0) := by
    push_neg
    constructor
    · rw [hlen]; push_cast; omega
    · exact hd0
  set A := fcs.getD d.toNat 0 * pv.morning_ratio * 1000 /
    ((pv.morning_end_hour - pv.morning_start_hour : ℕ) : ℚ) with hA
  set B := fcs.getD d.toNat 0 * (1 - pv.morning_ratio) * 1000 /
    ((pv.afternoon_end_hour - pv.morning_end_hour : ℕ) : ℚ) with hB
  have hterm : ∀ h : ℕ, pv.calculate_hourly_pv fcs d h =
      if h < pv.morning_start_hour ∨ h ≥ pv.afternoon_end_hour then 0
      else if h < pv.morning_end_hour then A else B := by
    intro h
    rw [PVSystem.calculate_hourly_pv, if_neg hday]
    rw [if_neg (not_le.2 hpos)]
  constructor
  · intro h hcond
    rw [hterm h, if_pos hcond]
  · rw [Finset.sum_congr rfl (fun h _ => hterm h)]
    have hms24 : pv.morning_start_hour ≤ 24 := by omega
    have hme24 : pv.morning_end_hour ≤ 24 := by omega
    have hae24 : pv.afternoon_end_hour ≤ 24 := by omega
    rw [Finset.range_eq_Ico]
    rw [← Finset.sum_Ico_consecutive _ (Nat.zero_le pv.morning_start_hour) hms24]
    rw [← Finset.sum_Ico_consecutive _ (le_of_lt hms) hme24]
    rw [← Finset.sum_Ico_consecutive _ (le_of_lt hme) hae24]
    have s1 : ∑ h in Finset.Ico 0 pv.morning_start_hour,
        (if h < pv.morning_start_hour ∨ h ≥ pv.afternoon_end_hour then 0
         else if h < pv.morning_end_hour then A else B) = 0 := by
      apply Finset.sum_eq_zero
      intro h hh
      rw [Finset.mem_Ico] at hh
      rw [if_pos (Or.inl hh.2)]
    have s2 : ∑ h in Finset.Ico pv.morning_start_hour pv.morning_end_hour,
        (if h < pv.morning_start_hour ∨ h ≥ pv.afternoon_end_hour then 0
         else if h < pv.morning_end_hour then A else B) =
        ((pv.morning_end_hour - pv.morning_start_hour : ℕ) : ℚ) * A := by
      rw [Finset.sum_congr rfl (fun h hh => ?_), Finset.sum_const, Nat.card_Ico,
        nsmul_eq_mul]
      rw [Finset.mem_Ico] at hh
      rw [if_neg (by omega), if_pos hh.2]
    have s3 : ∑ h in Finset.Ico pv.morning_end_hour pv.afternoon_end_hour,
        (if h < pv.morning_start_hour ∨ h ≥ pv.afternoon_end_hour then 0
         else if h < pv.morning_end_hour then A else B) =
        ((pv.afternoon_end_hour - pv.morning_end_hour : ℕ) : ℚ) * B := by
      rw [Finset.sum_congr rfl (fun h hh => ?_), Finset.sum_const, Nat.card_Ico,
        nsmul_eq_mul]
      rw [Finset.mem_Ico] at hh
      rw [if_neg (by omega), if_neg (by omega)]
    have s4 : ∑ h in Finset.Ico pv.afternoon_end_hour 24,
        (if h < pv.morning_start_hour ∨ h ≥ pv.afternoon_end_hour then 0
         else if h < pv.morning_end_hour then A else B) = 0 := by
      apply Finset.sum_eq_zero
      intro h hh
      rw [Finset.mem_Ico] at hh
      rw [if_pos (Or.inr hh.1)]
    rw [s1, s2, s3, s4]
    have hmsne : ((pv.morning_end_hour - pv.morning_start_hour : ℕ) : ℚ) ≠ 0 := by
      have : 0 < pv.morning_end_hour - pv.morning_start_hour := by omega
      positivity
    have haene : ((pv.afternoon_end_hour - pv.morning_end_hour : ℕ) : ℚ) ≠ 0 := by
      have : 0 < pv.afternoon_end_hour - pv.morning_end_hour := by omega
      positivity
    rw [hA, hB]
    rw [mul_div_cancel₀ _ hmsne, mul_div_cancel₀ _ haene]
    ring

/-- Witness for C9 with the default PV configuration (window 7-13-18,
morning share 4/5) and forecast [10, 12, 8] kWh for today. -/
theorem C9_witness :
    ((7 < 13 ∧ 13 < 18 ∧ (18:ℕ) ≤ 23) ∧ ([10, 12, 8] : List ℚ).length = 3 ∧
      (0:ℤ) ≤ 0 ∧ (0:ℤ) < 3 ∧ 0 < ([10, 12, 8] : List ℚ).getD (Int.toNat 0) 0) ∧
    ((∀ h : ℕ, h < 7 ∨ h ≥ 18 →
        PVSystem.calculate_hourly_pv ⟨3200, 7, 13, 18, 4/5⟩ [10, 12, 8] 0 h = 0) ∧
      ∑ h in Finset.range 24,
        PVSystem.calculate_hourly_pv ⟨3200, 7, 13, 18, 4/5⟩ [10, 12, 8] 0 h =
        ([10, 12, 8] : List ℚ).getD (Int.toNat 0) 0 * 1000) := by
  refine ⟨⟨⟨by norm_num, by norm_num, by norm_num⟩, rfl, by norm_num, by norm_num,
    by norm_num [List.getD]⟩, ?_⟩
  exact C9_pv_window_and_daily_sum ⟨3200, 7, 13, 18, 4/5⟩ [10, 12, 8] 0 (by norm_num)
    (by norm_num) (by norm_num) rfl (by norm_num) (by norm_num) (by norm_num [List.getD])

/-- C8 amended: at every hour where the discretionary load enters active,
the loop deactivates it (both in the schedule entry and in the carried
state) exactly when the battery-sourced fraction of the load's energy for
that hour exceeds 50% AND the SOC at the start of that hour is at or above
target_soc.  The code compares the current hour's SOC with the target, not
whether the trajectory has already reached the target at some point, which
is what the original claim asserted (see the counterexample). -/
theorem C8_deactivation_rule_uses_current_soc (cfg : SystemCfg) (fcs : List ℚ)
    (ref start : SimTime) (hoursTotal hourIdx : ℕ) (t : SimTime) (soc : ℚ) :
    ((add_load_step cfg fcs ref start hoursTotal hourIdx t soc true).sched = false ↔
      battery_contribution_ratio (pv_at cfg fcs t ref * duration_fraction hourIdx start)
        (dc_at cfg t * duration_fraction hourIdx start)
        (ac_at cfg true t * duration_fraction hourIdx start)
        (cfg.ac_consumer.additional_load_w * duration_fraction hourIdx start) > 1/2 ∧
      soc ≥ cfg.target_soc_percent) ∧
    (add_load_step cfg fcs ref start hoursTotal hourIdx t soc true).new_active =
      (add_load_step cfg fcs ref start hoursTotal hourIdx t soc true).sched := by
  simp only [add_load_step, if_true]
  by_cases hcond : battery_contribution_ratio
      (pv_at cfg fcs t ref * duration_fraction hourIdx start)
      (dc_at cfg t * duration_fraction hourIdx start)
      (ac_at cfg true t * duration_fraction hourIdx start)
      (cfg.ac_consumer.additional_load_w * duration_fraction hourIdx start) > 1/2 ∧
      soc ≥ cfg.target_soc_percent
  · rw [if_pos hcond]
    refine ⟨?_, ?_⟩ <;> simp [hcond]
    linarith [hcond.1]
  · rw [if_neg hcond]
    refine ⟨?_, ?_⟩ <;> simp [hcond]
    intro hA
    rcases not_and_or.1 hcond with h | h
    · exact absurd (by linarith [hA]) h
    · exact not_le.1 h

set_option maxHeartbeats 2000000 in
/-- C8 counterexample: a 3-hour run of the scheduling loop on `cfgC8` with
forecast [2, 0, 0] kWh starting at hour 0 and SOC 50%.  The load activates
at hour 0 and the SOC trajectory is [95, 80, 25]: the target 85 is reached
at hour 0 (SOC 95) and the SOC then falls below it.  At hour 2 the load is
active, the battery-sourced fraction is 1 (> 50%), and the trajectory has
already reached the target — so the original claim demands deactivation —
yet the schedule stays [true, true, true] because the SOC entering hour 2
(80) is below the target. -/
theorem C8_counterexample :
    (calculate_additional_load_optimization cfgC8 ⟨0,0,0⟩ 3 [2,0,0] 50 ⟨0,0,0⟩).schedule
      = [true, true, true] ∧
    (calculate_additional_load_optimization cfgC8 ⟨0,0,0⟩ 3 [2,0,0] 50
      ⟨0,0,0⟩).hourly_details.map (fun d => d.final_soc_percent) = [95, 80, 25] ∧
    battery_contribution_ratio 0 100 450 400 > 1/2 ∧
    ((95:ℚ) ≥ 85 ∧ (80:ℚ) < 85) := by
  refine ⟨?_, ?_, by norm_num [battery_contribution_ratio], by norm_num⟩ <;>
  norm_num [calculate_additional_load_optimization, add_load_details, add_load_step,
    verify_additional_load_safety, simulate_soc_progression, soc_progression_aux,
    safety_scan, battery_contribution_ratio, pv_at, ac_at, dc_at, duration_fraction,
    SimTime.next_hour_boundary, SimTime.add_one_hour,
    PVSystem.calculate_hourly_pv, ACConsumer.calculate_hourly, DCConsumer.calculate_hourly,
    List.getD, simulate_flows, simulate_energy_flow, calculate_energy_flow,
    handle_ac_surplus, handle_ac_deficit, surplus_total_dc_demand, surplus_charger_input,
    deficit_battery_stage, deficit_forced, deficit_unmet_direct_dc, deficit_total_dc,
    deficit_dc_needed_for_ac, deficit_inverter_out,
    Inverter.update_soc, Inverter.set_enabled, Inverter.is_enabled,
    Inverter.get_max_ac_output_wh, Inverter.provide_ac_from_dc,
    Inverter.get_standby_consumption_wh,
    Battery.set_current_soc, clamp_soc, Battery.charge_discharge,
    Battery.get_max_charge_energy_wh, Battery.get_max_discharge_energy_wh,
    Battery.current_energy_wh, Charger.provide_dc_from_ac, Charger.convert_ac_to_dc,
    Charger.get_max_ac_input_wh, Charger.get_standby_consumption_wh,
    cfgC8, min_def, max_def]

theorem run_simulation_value_error_on_invalid :
    run_simulation default_cfg 101 [10, 12, 8] ⟨0, 14, 0⟩ = .error .valueError ∧
    run_simulation default_cfg 50 [10, 12] ⟨0, 14, 0⟩ = .error .valueError := by
  constructor <;> norm_num [run_simulation, validate_inputs]

/-- C1: for every configuration and every invocation that passes input
validation (SOC within [0, 100] and exactly 3 forecast values),
`run_simulation` does not return the result record: it raises
`AttributeError`, because after the controller calculation it calls
`self.controller.simulate_soc_with_extra_load`, a method that is not
defined anywhere in the repository.  The validation part of the claim does
hold: `ValueError` is raised exactly for out-of-range SOC or a forecast
count other than 3, and negative forecast entries are clamped to 0, but no
valid invocation completes. -/
theorem C1_run_simulation_always_attribute_error (cfg : SystemCfg) (soc : ℚ)
    (fcs : List ℚ) (t : SimTime)
    (h1 : 0 ≤ soc ∧ soc ≤ 100) (h2 : fcs.length = 3) :
    run_simulation cfg soc fcs t = .error .attributeError := by
  have hv : validate_inputs soc fcs = .ok (fcs.map fun f => if f < 0 then 0 else f) := by
    rw [validate_inputs, if_neg (not_not_intro h1), if_neg (by simp [h2])]
  rw [run_simulation, hv]

/-- Witness for C1 at the default configuration and the repository's own
test input (SOC 50, forecasts [10, 12, 8] kWh, 14:00). -/
theorem C1_witness :
    ((0:ℚ) ≤ 50 ∧ (50:ℚ) ≤ 100) ∧ ([10, 12, 8] : List ℚ).length = 3 ∧
    run_simulation default_cfg 50 [10, 12, 8] ⟨0, 14, 0⟩ = .error .attributeError := by
  exact ⟨⟨by norm_num, by norm_num⟩, rfl,
    C1_run_simulation_always_attribute_error default_cfg 50 [10, 12, 8] ⟨0, 14, 0⟩
      ⟨by norm_num, by norm_num⟩ rfl⟩

end BM
